import Mathlib

/-!
Shallow embedding of the legiLLM pipeline core (format normalizer, storage
providers, filter pass, hook system, analysis pass) and proofs about it.

Python values are modelled as a `Json` inductive; Python floats are modelled
as rationals; Python dicts as association lists (first binding wins on
lookup, matching dict semantics since real dicts never hold duplicate keys);
exceptions as `Except`; the LLM and the network as explicit oracles passed
to the functions that call them.
-/

namespace LegiLLM

/-- JSON values as produced by `json.loads` / consumed by `json.dump`.
Numbers are rationals (Python ints and floats). -/
inductive Json where
  | null : Json
  | bool (b : Bool) : Json
  | num (q : ℚ) : Json
  | str (s : String) : Json
  | arr (elems : List Json) : Json
  | obj (kvs : List (String × Json)) : Json

mutual

/-- Structural decidable equality for `Json` (the derive handler does not
support the nested occurrences of `List`). -/
def Json.decEq : (a b : Json) → Decidable (a = b)
  | .null, .null => .isTrue rfl
  | .null, .bool _ => .isFalse (fun h => nomatch h)
  | .null, .num _ => .isFalse (fun h => nomatch h)
  | .null, .str _ => .isFalse (fun h => nomatch h)
  | .null, .arr _ => .isFalse (fun h => nomatch h)
  | .null, .obj _ => .isFalse (fun h => nomatch h)
  | .bool _, .null => .isFalse (fun h => nomatch h)
  | .bool a, .bool b =>
    match instDecidableEqBool a b with
    | .isTrue h => .isTrue (h ▸ rfl)
    | .isFalse h => .isFalse (fun e => h (Json.bool.inj e))
  | .bool _, .num _ => .isFalse (fun h => nomatch h)
  | .bool _, .str _ => .isFalse (fun h => nomatch h)
  | .bool _, .arr _ => .isFalse (fun h => nomatch h)
  | .bool _, .obj _ => .isFalse (fun h => nomatch h)
  | .num _, .null => .isFalse (fun h => nomatch h)
  | .num _, .bool _ => .isFalse (fun h => nomatch h)
  | .num a, .num b =>
    match (inferInstance : DecidableEq ℚ) a b with
    | .isTrue h => .isTrue (h ▸ rfl)
    | .isFalse h => .isFalse (fun e => h (Json.num.inj e))
  | .num _, .str _ => .isFalse (fun h => nomatch h)
  | .num _, .arr _ => .isFalse (fun h => nomatch h)
  | .num _, .obj _ => .isFalse (fun h => nomatch h)
  | .str _, .null => .isFalse (fun h => nomatch h)
  | .str _, .bool _ => .isFalse (fun h => nomatch h)
  | .str _, .num _ => .isFalse (fun h => nomatch h)
  | .str a, .str b =>
    match String.decEq a b with
    | .isTrue h => .isTrue (h ▸ rfl)
    | .isFalse h => .isFalse (fun e => h (Json.str.inj e))
  | .str _, .arr _ => .isFalse (fun h => nomatch h)
  | .str _, .obj _ => .isFalse (fun h => nomatch h)
  | .arr _, .null => .isFalse (fun h => nomatch h)
  | .arr _, .bool _ => .isFalse (fun h => nomatch h)
  | .arr _, .num _ => .isFalse (fun h => nomatch h)
  | .arr _, .str _ => .isFalse (fun h => nomatch h)
  | .arr xs, .arr ys =>
    match Json.decEqList xs ys with
    | .isTrue h => .isTrue (h ▸ rfl)
    | .isFalse h => .isFalse (fun e => h (Json.arr.inj e))
  | .arr _, .obj _ => .isFalse (fun h => nomatch h)
  | .obj _, .null => .isFalse (fun h => nomatch h)
  | .obj _, .bool _ => .isFalse (fun h => nomatch h)
  | .obj _, .num _ => .isFalse (fun h => nomatch h)
  | .obj _, .str _ => .isFalse (fun h => nomatch h)
  | .obj _, .arr _ => .isFalse (fun h => nomatch h)
  | .obj xs, .obj ys =>
    match Json.decEqKvs xs ys with
    | .isTrue h => .isTrue (h ▸ rfl)
    | .isFalse h => .isFalse (fun e => h (Json.obj.inj e))

/-- Decidable equality of JSON value lists. -/
def Json.decEqList : (xs ys : List Json) → Decidable (xs = ys)
  | [], [] => .isTrue rfl
  | [], _ :: _ => .isFalse (fun h => nomatch h)
  | _ :: _, [] => .isFalse (fun h => nomatch h)
  | x :: xs, y :: ys =>
    match Json.decEq x y with
    | .isFalse h => .isFalse (fun e => h (List.cons.inj e).1)
    | .isTrue h1 =>
      match Json.decEqList xs ys with
      | .isTrue h2 => .isTrue (h1 ▸ h2 ▸ rfl)
      | .isFalse h => .isFalse (fun e => h (List.cons.inj e).2)

/-- Decidable equality of JSON object binding lists. -/
def Json.decEqKvs : (xs ys : List (String × Json)) → Decidable (xs = ys)
  | [], [] => .isTrue rfl
  | [], _ :: _ => .isFalse (fun h => nomatch h)
  | _ :: _, [] => .isFalse (fun h => nomatch h)
  | (k1, v1) :: xs, (k2, v2) :: ys =>
    match String.decEq k1 k2 with
    | .isFalse h =>
      .isFalse (fun e => h (congrArg Prod.fst (List.cons.inj e).1))
    | .isTrue hk =>
      match Json.decEq v1 v2 with
      | .isFalse h =>
        .isFalse (fun e => h (congrArg Prod.snd (List.cons.inj e).1))
      | .isTrue hv =>
        match Json.decEqKvs xs ys with
        | .isTrue ht => .isTrue (hk ▸ hv ▸ ht ▸ rfl)
        | .isFalse h => .isFalse (fun e => h (List.cons.inj e).2)

end

instance : DecidableEq Json := Json.decEq

instance {ε α : Type} [DecidableEq ε] [DecidableEq α] :
    DecidableEq (Except ε α) := fun a b =>
  match a, b with
  | .ok x, .ok y =>
    if h : x = y then .isTrue (by rw [h]) else .isFalse (fun e => h (Except.ok.inj e))
  | .error x, .error y =>
    if h : x = y then .isTrue (by rw [h]) else .isFalse (fun e => h (Except.error.inj e))
  | .ok _, .error _ => .isFalse (fun e => nomatch e)
  | .error _, .ok _ => .isFalse (fun e => nomatch e)

/-- `d.get(k)` on a dict: the bound value, or Python `None` when absent. -/
def pyDictGet (kvs : List (String × Json)) (k : String) : Json :=
  (kvs.lookup k).getD Json.null

/-- `d[k] = v` on a dict: overwrite in place, or append a new binding. -/
def pyDictSet (kvs : List (String × Json)) (k : String) (v : Json) :
    List (String × Json) :=
  if (kvs.lookup k).isSome then
    kvs.map (fun p => if p.1 = k then (k, v) else p)
  else
    kvs ++ [(k, v)]

/-- Python truthiness of a JSON value (`bool(x)`). -/
def Json.truthy : Json → Bool
  | .null => false
  | .bool b => b
  | .num q => q ≠ 0
  | .str s => s ≠ ""
  | .arr xs => ¬xs.isEmpty
  | .obj kvs => ¬kvs.isEmpty

/-- The keys of a JSON object, in insertion order (`list(d.keys())`);
`[]` on non-objects. -/
def Json.keys : Json → List String
  | .obj kvs => kvs.map Prod.fst
  | _ => []

/-- Key lookup on a JSON object (`d.get(k)` returning an `Option`). -/
def Json.getKey : Json → String → Option Json
  | .obj kvs, k => kvs.lookup k
  | _, _ => none

/-! ## Executable string helpers

Python string primitives (`endswith`, `startswith`, slicing, `split`,
`upper`, `isdigit`, `int(...)`, `str(...)`) modelled on the character
lists underlying `String`. -/

/-- `s.endswith(suffix)`. -/
def strEndsWith (s suffix : String) : Bool :=
  suffix.data.isSuffixOf s.data

/-- `s.startswith(prefix)`. -/
def strStartsWith (s pre : String) : Bool :=
  pre.data.isPrefixOf s.data

/-- `s[:-n]` for `n ≤ len(s)`. -/
def strDropRight (s : String) (n : ℕ) : String :=
  ⟨s.data.take (s.data.length - n)⟩

/-- `s.upper()` (ASCII, the only case the pipeline feeds it). -/
def strToUpper (s : String) : String :=
  ⟨s.data.map Char.toUpper⟩

/-- `s.isdigit()` (ASCII digits). -/
def strIsDigits (s : String) : Bool :=
  ¬s.data.isEmpty && s.data.all Char.isDigit

/-- `int(s)` on a digit string. -/
def strToNat (s : String) : ℕ :=
  s.data.foldl (fun n c => n * 10 + (c.toNat - 48)) 0

/-- `s.split(c)` (always at least one piece, like Python). -/
def splitOnCharAux (c : Char) : List Char → List Char → List (List Char)
  | [], cur => [cur.reverse]
  | x :: xs, cur =>
    if x = c then cur.reverse :: splitOnCharAux c xs []
    else splitOnCharAux c xs (x :: cur)

/-- `s.split(c)` on strings. -/
def strSplitOnChar (s : String) (c : Char) : List String :=
  (splitOnCharAux c s.data []).map String.mk

/-- Decimal digits of `n`, most significant first (`fuel` bounds the digit
count; `n + 1` always suffices). -/
def natDigitsAux : ℕ → ℕ → List Char
  | 0, _ => []
  | fuel + 1, n =>
    if n < 10 then [Nat.digitChar n]
    else natDigitsAux fuel (n / 10) ++ [Nat.digitChar (n % 10)]

/-- `str(n)` for a natural number. -/
def natToStr (n : ℕ) : String :=
  ⟨natDigitsAux (n + 1) n⟩

/-- Lexicographic order on character lists (the `ORDER BY` collation of the
text sort key; the pipeline only ever sorts ASCII bill numbers). -/
def charListLe : List Char → List Char → Bool
  | [], _ => true
  | _ :: _, [] => false
  | a :: as, b :: bs =>
    if a = b then charListLe as bs else decide (a < b)

/-- `str(z)` for an integer. -/
def intToStr : ℤ → String
  | .ofNat n => natToStr n
  | .negSucc m => "-" ++ natToStr (m + 1)

/-! ## Fixed-point formatting (`f"{x:.4f}"`)

Python renders `x` rounded to four decimal places, ties to even, always
with exactly four digits after the point.  Numbers are rationals; the
arithmetic is carried out on numerator and denominator directly. -/

/-- Round `a / b` (with `b > 0`) to the nearest integer, ties to even. -/
def roundHalfEvenInt (a b : ℤ) : ℤ :=
  let f : ℤ := Int.fdiv a b
  let r2 : ℤ := 2 * (a - f * b)
  if r2 < b then f
  else if b < r2 then f + 1
  else if f % 2 = 0 then f else f + 1

/-- The four decimal digits of `n % 10000`, zero-padded to width 4. -/
def pad4 (n : ℕ) : String :=
  String.mk [Nat.digitChar (n / 1000 % 10), Nat.digitChar (n / 100 % 10),
    Nat.digitChar (n / 10 % 10), Nat.digitChar (n % 10)]

/-- `f"{q:.4f}"`: sign, integer part, a point, exactly four decimals:
round `|q| * 10000 = (10000 |q.num|) / q.den` half-to-even. -/
def fmt4 (q : ℚ) : String :=
  let n : ℕ := (roundHalfEvenInt ((q.num.natAbs : ℤ) * 10000) (q.den : ℤ)).toNat
  (if q.num < 0 then "-" else "") ++ natToStr (n / 10000) ++ "." ++
    pad4 (n % 10000)

/-! ## Format normalizer (`src/format_normalizer.py`)

Top-level filter-result documents are dicts, modelled as binding lists.
A raised `ValueError` from `detect_format` is `FormatError.unknownFormat`
carrying the top-level keys interpolated into its message; exceptions that
escape the per-bill field accesses (`AttributeError` from `.get` on a
non-dict, `ValueError` from formatting a non-number) are `FormatError.fail`. -/

inductive FormatError where
  | unknownFormat (foundKeys : List String)
  | fail (msg : String)
deriving DecidableEq

/-- `detect_format`: key presence of `relevant_bills`, then `results`; any
other dict raises `ValueError` naming the keys found. -/
def detect_format (data : List (String × Json)) : Except FormatError String :=
  if (data.lookup "relevant_bills").isSome then .ok "original"
  else if (data.lookup "results").isSome then .ok "alan"
  else .error (.unknownFormat (data.map Prod.fst))

/-- `Except`-valued `map` over a list, stopping at the first error (models a
Python `for` loop that can raise). -/
def mapExcept (f : α → Except ε β) : List α → Except ε (List β)
  | [] => .ok []
  | x :: xs =>
    match f x with
    | .error e => .error e
    | .ok y =>
      match mapExcept f xs with
      | .error e => .error e
      | .ok ys => .ok (y :: ys)

/-- One bill of `_normalize_original_format`: `.get` each field, empty
`extra_metadata`.  A non-dict element raises `AttributeError`. -/
def normalizeOriginalBill (bill : Json) : Except FormatError Json :=
  match bill with
  | .obj kvs =>
    .ok (.obj [("bill_number", pyDictGet kvs "bill_number"),
      ("title", pyDictGet kvs "title"),
      ("url", pyDictGet kvs "url"),
      ("reason", pyDictGet kvs "reason"),
      ("extra_metadata", .obj [])])
  | _ => .error (.fail "AttributeError: no attribute get")

/-- The iterable of bills: `data.get(key, [])` followed by a `for` loop.
Iterating a non-empty dict yields its string keys and iterating a non-empty
string yields characters, both of which make the per-bill `.get` raise, so
they are folded into `FormatError.fail`; empty ones yield no iterations. -/
def billsIterable (v : Json) : Except FormatError (List Json) :=
  match v with
  | .arr bs => .ok bs
  | .obj kvs => if kvs.isEmpty then .ok [] else .error (.fail "AttributeError: no attribute get")
  | .str s => if s.isEmpty then .ok [] else .error (.fail "AttributeError: no attribute get")
  | _ => .error (.fail "TypeError: not iterable")

/-- `_normalize_original_format`. -/
def normalize_original_format (data : List (String × Json)) :
    Except FormatError (List Json) :=
  match billsIterable ((data.lookup "relevant_bills").getD (.arr [])) with
  | .error e => .error e
  | .ok bills => mapExcept normalizeOriginalBill bills

/-- A value acceptable to `f"{x:.4f}"`: numbers, and bools (Python bools are
ints).  Anything else raises at formatting time. -/
def jsonToRat? : Json → Option ℚ
  | .num q => some q
  | .bool b => some (if b then 1 else 0)
  | _ => none

/-- The synthesized Shape-B reason string. -/
def alanReason (s d : ℚ) : String :=
  "Vector similarity match (score: " ++ fmt4 s ++ ", distance: " ++ fmt4 d ++ ")"

/-- One bill of `_normalize_alan_format`: `number` is renamed to
`bill_number`, `reason` is synthesized from similarity score and distance
(default `0` each), `extra_metadata` carries the seven listed fields. -/
def normalizeAlanBill (bill : Json) : Except FormatError Json :=
  match bill with
  | .obj kvs =>
    let sJ := (kvs.lookup "similarity_score").getD (.num 0)
    let dJ := (kvs.lookup "distance").getD (.num 0)
    match jsonToRat? sJ, jsonToRat? dJ with
    | some s, some d =>
      .ok (.obj [("bill_number", pyDictGet kvs "number"),
        ("title", pyDictGet kvs "title"),
        ("url", pyDictGet kvs "url"),
        ("reason", .str (alanReason s d)),
        ("extra_metadata", .obj [("bill_id", pyDictGet kvs "bill_id"),
          ("status_date", pyDictGet kvs "status_date"),
          ("last_action", pyDictGet kvs "last_action"),
          ("year", pyDictGet kvs "year"),
          ("session", pyDictGet kvs "session"),
          ("similarity_score", sJ),
          ("distance", dJ)])])
    | _, _ => .error (.fail "ValueError: unknown format code f")
  | _ => .error (.fail "AttributeError: no attribute get")

/-- `_normalize_alan_format`. -/
def normalize_alan_format (data : List (String × Json)) :
    Except FormatError (List Json) :=
  match billsIterable ((data.lookup "results").getD (.arr [])) with
  | .error e => .error e
  | .ok bills => mapExcept normalizeAlanBill bills

/-- `normalize_filter_results`: detect the format, then dispatch. -/
def normalize_filter_results (data : List (String × Json)) :
    Except FormatError (List Json) :=
  match detect_format data with
  | .error e => .error e
  | .ok fmt =>
    if fmt = "original" then normalize_original_format data
    else normalize_alan_format data

/-! ## Named-object storage (`src/local_file_storage.py`, `src/azure_blob_storage.py`)

Both backends store whole objects under path-like names; the name
computation, candidate resolution and empty-bucket checks are identical in
the two sources, so one embedding covers both.  The store maps paths to the
parsed JSON content of `.json` objects and to the raw text of `.txt`
objects; `save` is a whole-object overwrite; `exists` is a lookup. -/

structure FileStore where
  files : List (String × Json)
  texts : List (String × String)
deriving DecidableEq

/-- The empty store. -/
def FileStore.empty : FileStore := ⟨[], []⟩

/-- Read a JSON object if it exists at `path`. -/
def FileStore.getJson (st : FileStore) (path : String) : Option Json :=
  st.files.lookup path

/-- Overwrite the JSON object at `path`. -/
def FileStore.putJson (st : FileStore) (path : String) (v : Json) : FileStore :=
  ⟨(path, v) :: st.files, st.texts⟩

/-- Read a text object if it exists at `path`. -/
def FileStore.getText (st : FileStore) (path : String) : Option String :=
  st.texts.lookup path

/-- Overwrite the text object at `path`. -/
def FileStore.putText (st : FileStore) (path : String) (v : String) : FileStore :=
  ⟨st.files, (path, v) :: st.texts⟩

/-- Drop one trailing `.json` extension if present. -/
def stripJsonExt (s : String) : String :=
  if strEndsWith s ".json" then strDropRight s 5 else s

/-- `save_raw_data`: write to `raw/{name}.json`. -/
def save_raw_data (st : FileStore) (filename : String) (data : Json) : FileStore :=
  st.putJson ("raw/" ++ stripJsonExt filename ++ ".json") data

/-- `load_raw_data`: read `raw/{name}.json`, `FileNotFoundError` if absent. -/
def load_raw_data (st : FileStore) (filename : String) : Except String Json :=
  match st.getJson ("raw/" ++ stripJsonExt filename ++ ".json") with
  | some d => .ok d
  | none => .error ("Raw data file not found: " ++ filename)

/-- The filename used by `save_filtered_results`: keep an existing
`filter_results_` prefix, otherwise add it; then drop one `.json`. -/
def filteredSaveName (run_id : String) : String :=
  stripJsonExt (if strStartsWith run_id "filter_results_" then run_id
                else "filter_results_" ++ run_id)

/-- `save_filtered_results`. -/
def save_filtered_results (st : FileStore) (run_id : String) (data : Json) :
    FileStore :=
  st.putJson ("filtered/" ++ filteredSaveName run_id ++ ".json") data

/-- Map one candidate filename to the path probed by the load loop:
an explicit `.json` is used as-is, anything else gets `.json` appended. -/
def filteredCandidatePath (filename : String) : String :=
  if strEndsWith filename ".json" then "filtered/" ++ filename
  else "filtered/" ++ filename ++ ".json"

/-- The four historically valid name variants, in the order tried. -/
def possibleFilenames (run_id : String) : List String :=
  [run_id,
   "filter_results_" ++ run_id,
   run_id ++ ".json",
   "filter_results_" ++ run_id ++ ".json"]

/-- The `for filename in possible_filenames` loop body. -/
def loadFilteredLoop (st : FileStore) : List String → Except String Json
  | [] => .error "Filter results not found"
  | f :: fs =>
    match st.getJson (filteredCandidatePath f) with
    | some d => .ok d
    | none => loadFilteredLoop st fs

/-- `load_filtered_results`: probe the candidates in order, return the first
hit, raise `FileNotFoundError` only after all four fail. -/
def load_filtered_results (st : FileStore) (run_id : String) :
    Except String Json :=
  loadFilteredLoop st (possibleFilenames run_id)

/-- The filename prefix used for analysis results: keep an existing
`analysis_` prefix, otherwise add it; then drop one `.json`. -/
def analysisPrefix (run_id : String) : String :=
  stripJsonExt (if strStartsWith run_id "analysis_" then run_id
                else "analysis_" ++ run_id)

/-- `save_analysis_results`: write both buckets (each a bare list or an
envelope dict, stored as given). -/
def save_analysis_results (st : FileStore) (run_id : String)
    (relevant not_relevant : Json) : FileStore :=
  (st.putJson ("analyzed/" ++ analysisPrefix run_id ++ "_relevant.json") relevant
    ).putJson ("analyzed/" ++ analysisPrefix run_id ++ "_not_relevant.json")
      not_relevant

/-- `load_analysis_results`: missing buckets default to `[]`; when both
loaded buckets are falsy the backend raises `FileNotFoundError`. -/
def load_analysis_results (st : FileStore) (run_id : String) :
    Except String (Json × Json) :=
  let relevant :=
    (st.getJson ("analyzed/" ++ analysisPrefix run_id ++ "_relevant.json")).getD
      (.arr [])
  let not_relevant :=
    (st.getJson ("analyzed/" ++ analysisPrefix run_id ++ "_not_relevant.json")).getD
      (.arr [])
  if ¬relevant.truthy ∧ ¬not_relevant.truthy then
    .error ("Analysis results not found for run_id: " ++ run_id)
  else
    .ok (relevant, not_relevant)

/-- `get_bill_from_cache`: `None` when absent, never an exception. -/
def get_bill_from_cache (st : FileStore) (bill_id : ℤ) : Option Json :=
  st.getJson ("cache/legiscan_cache/bill_" ++ intToStr bill_id ++ ".json")

/-- `save_bill_to_cache`. -/
def save_bill_to_cache (st : FileStore) (bill_id : ℤ) (data : Json) : FileStore :=
  st.putJson ("cache/legiscan_cache/bill_" ++ intToStr bill_id ++ ".json") data

/-- `get_bill_text_from_cache`. -/
def get_bill_text_from_cache (st : FileStore) (doc_id : String) : Option String :=
  st.getText ("cache/legiscan_cache/bill_text_" ++ doc_id ++ ".txt")

/-- `save_bill_text_to_cache`. -/
def save_bill_text_to_cache (st : FileStore) (doc_id : String) (text : String) :
    FileStore :=
  st.putText ("cache/legiscan_cache/bill_text_" ++ doc_id ++ ".txt") text

/-! ## Relational backend, raw data (`src/database_storage.py`)

`save_raw_data` decomposes the document into per-bill rows of the `bills`
table keyed by `bill_id`; `load_raw_data` parses state and year out of the
filename, selects matching rows ordered by `bill_number` and reconstructs a
`{summary: {masterlist, total}}` document.  Only the columns the loader
reads back (plus the sort key) are modelled; the remaining columns are
write-only. -/

structure DBBillRow where
  bill_number : Json
  title : Json
  url : Json
  state : Json
  year : Json
  raw_data : Json
deriving DecidableEq

structure BillsTable where
  rows : List (Json × DBBillRow)
deriving DecidableEq

/-- The empty `bills` table. -/
def BillsTable.empty : BillsTable := ⟨[]⟩

/-- `INSERT ... ON CONFLICT (bill_id) DO UPDATE`: replace the row with this
key, or append a new row. -/
def BillsTable.upsert (t : BillsTable) (key : Json) (row : DBBillRow) :
    BillsTable :=
  if (t.rows.lookup key).isSome then
    ⟨t.rows.map (fun p => if p.1 = key then (key, row) else p)⟩
  else
    ⟨t.rows ++ [(key, row)]⟩

/-- The bill list `save_raw_data` extracts from the document:
`summary.masterlist`, else the `bills` key, else the document itself when it
is a list, else nothing.  A `masterlist` that is present but not a list
yields no dict rows (the loop skips non-dict members). -/
def extractBills (data : Json) : List Json :=
  match data with
  | .obj kvs =>
    match kvs.lookup "summary" with
    | some (.obj skvs) =>
      match skvs.lookup "masterlist" with
      | some (.arr bs) => bs
      | some _ => []
      | none =>
        match kvs.lookup "bills" with
        | some (.arr bs) => bs
        | _ => []
    | _ =>
      match kvs.lookup "bills" with
      | some (.arr bs) => bs
      | _ => []
  | .arr bs => bs
  | _ => []

/-- Insert one extracted bill: non-dict rows and falsy `bill_id`s are
skipped; the row stores the columns the loader uses and the whole bill as
`raw_data`. -/
def dbInsertBill (t : BillsTable) (bill : Json) : BillsTable :=
  match bill with
  | .obj kvs =>
    let bid := pyDictGet kvs "bill_id"
    if bid.truthy then
      t.upsert bid ⟨pyDictGet kvs "bill_number", pyDictGet kvs "title",
        pyDictGet kvs "url", pyDictGet kvs "state", pyDictGet kvs "year",
        bill⟩
    else t
  | _ => t

/-- `DatabaseStorage.save_raw_data` (single-write mode): the filename is not
stored, every extracted bill is upserted. -/
def db_save_raw_data (t : BillsTable) (filename : String) (data : Json) :
    BillsTable :=
  let _ := stripJsonExt filename
  (extractBills data).foldl dbInsertBill t

/-- The `ORDER BY bill_number` collation key (`NULL` and non-string
columns do not occur in rows written by this pipeline; default them low). -/
def jsonStrKey (j : Json) : String :=
  match j with
  | .str s => s
  | _ => ""

/-- Insert into a list sorted by a string key. -/
def insertSortedBy {α : Type} (key : α → String) (r : α) :
    List α → List α
  | [] => [r]
  | x :: xs =>
    if charListLe (key r).data (key x).data then r :: x :: xs
    else x :: insertSortedBy key r xs

/-- Insertion sort by a string key (the `ORDER BY` of the loaders). -/
def sortByKey {α : Type} (key : α → String) : List α → List α
  | [] => []
  | r :: rs => insertSortedBy key r (sortByKey key rs)

/-- `ORDER BY bill_number` on `bills` rows. -/
def rowSortKey (r : DBBillRow) : String :=
  jsonStrKey r.bill_number

/-- Insertion sort of `bills` rows by `bill_number`. -/
def sortRows (rs : List DBBillRow) : List DBBillRow :=
  sortByKey rowSortKey rs

/-- `DatabaseStorage.load_raw_data`: parse `state`/`year` from the filename,
select matching rows, `FileNotFoundError` when none match, and reconstruct
`{summary: {masterlist: [...], total: n}}` from the `raw_data` column. -/
def db_load_raw_data (t : BillsTable) (filename : String) :
    Except String Json :=
  let fn := stripJsonExt filename
  let parts := strSplitOnChar fn '_'
  let state := strToUpper (parts.headD "")
  let lastPart := parts.getLastD ""
  let year : Option ℕ := if strIsDigits lastPart then some (strToNat lastPart) else none
  let selected := (t.rows.map Prod.snd).filter (fun r =>
    (decide (state = "") || decide (r.state = .str state)) &&
    (match year with
     | some y => decide (y = 0) || decide (r.year = .num y)
     | none => true))
  let ordered := sortRows selected
  if ordered.isEmpty then
    .error ("No bills found for: " ++ filename)
  else
    .ok (.obj [("summary", .obj [("masterlist", .arr (ordered.map (·.raw_data))),
      ("total", .num ordered.length)])])

/-! ## Relational backend, filter results (`src/database_storage.py`)

`save_filtered_results` stores one `filter_results` row per relevant bill
whose `bill_number` resolves in the `bills` table, keyed by
`(bill_id, run_id)`, plus one `pipeline_runs` row keyed by `run_id`;
`load_filtered_results` selects rows by the exact `run_id` (no name
variants), joins `bills` for display fields, orders by `bill_number` and
rebuilds a `{summary, relevant_bills}` document.  The integer count
columns are `ℤ`; `filtered_at`/`status` timestamps are not read back. -/

structure FilterResultRow where
  bill_id : Json
  run_id : String
  is_relevant : Bool
  reason : Json
deriving DecidableEq

structure PipelineRunRow where
  stage : String
  status : String
  bills_processed : ℤ
  bills_relevant : ℤ
deriving DecidableEq

structure FilterDB where
  filter_results : List FilterResultRow
  pipeline_runs : List (String × PipelineRunRow)
deriving DecidableEq

/-- The empty relational filter-results state. -/
def FilterDB.empty : FilterDB := ⟨[], []⟩

/-- A value the INTEGER count columns accept (Python ints; bools are
ints).  Anything else fails the insert. -/
def jsonToInt? : Json → Option ℤ
  | .num q => if q.den = 1 then some q.num else none
  | .bool b => some (if b then 1 else 0)
  | _ => none

/-- `INSERT ... ON CONFLICT (bill_id, run_id) DO UPDATE` on
`filter_results`. -/
def filterRowsUpsert (rows : List FilterResultRow) (bid : Json)
    (rid : String) (reason : Json) : List FilterResultRow :=
  if rows.any (fun r => decide (r.bill_id = bid) && decide (r.run_id = rid))
  then rows.map (fun r =>
    if r.bill_id = bid ∧ r.run_id = rid then ⟨bid, rid, true, reason⟩ else r)
  else rows ++ [⟨bid, rid, true, reason⟩]

/-- The per-bill insert loop of `save_filtered_results`: a falsy
`bill_number` or a `bills`-table miss skips the row; the row stores
`is_relevant = TRUE` and the bill's `reason` (default `''`). -/
def dbInsertFilterRows (bills : BillsTable) (rid : String) :
    List FilterResultRow → List Json → Except String (List FilterResultRow)
  | rows, [] => .ok rows
  | rows, bd :: rest =>
    match bd with
    | .obj kvs =>
      let bn := pyDictGet kvs "bill_number"
      if ¬bn.truthy then dbInsertFilterRows bills rid rows rest
      else
        match bills.rows.find? (fun p => decide (p.2.bill_number = bn)) with
        | none => dbInsertFilterRows bills rid rows rest
        | some p =>
          dbInsertFilterRows bills rid
            (filterRowsUpsert rows p.1 rid ((kvs.lookup "reason").getD (.str "")))
            rest
    | _ => .error "AttributeError: get on non-dict"

/-- `DatabaseStorage.save_filtered_results` (single-write mode). -/
def db_save_filtered_results (bills : BillsTable) (db : FilterDB)
    (run_id : String) (data : List (String × Json)) : Except String FilterDB :=
  match billsIterable ((data.lookup "relevant_bills").getD (.arr [])) with
  | .error _ => .error "TypeError: relevant_bills not iterable"
  | .ok relevant_bills =>
    match (data.lookup "summary").getD (.obj []) with
    | .obj skvs =>
      match jsonToInt? ((skvs.lookup "total_analyzed").getD (.num 0)),
          jsonToInt? ((skvs.lookup "relevant_count").getD (.num 0)) with
      | some total_analyzed, some relevant_count =>
        match dbInsertFilterRows bills run_id db.filter_results
            relevant_bills with
        | .error e => .error e
        | .ok rows =>
          let runs :=
            if (db.pipeline_runs.lookup run_id).isSome then
              db.pipeline_runs.map (fun p =>
                if p.1 = run_id then
                  (run_id, ⟨"filter", "completed", total_analyzed,
                    relevant_count⟩)
                else p)
            else
              db.pipeline_runs ++
                [(run_id, ⟨"filter", "completed", total_analyzed,
                  relevant_count⟩)]
          .ok ⟨rows, runs⟩
      | _, _ => .error "DataError: non-integer count column"
    | _ => .error "AttributeError: get on non-dict summary"

/-- `DatabaseStorage.load_filtered_results`: rows with the exact `run_id`
and `is_relevant = TRUE`, joined to `bills`, ordered by `bill_number`;
`FileNotFoundError` when the selection is empty; summary counts from the
`pipeline_runs` row for `(run_id, 'filter')`, defaulting as in the
source. -/
def db_load_filtered_results (bills : BillsTable) (db : FilterDB)
    (run_id : String) : Except String Json :=
  let selected := db.filter_results.filter
    (fun r => decide (r.run_id = run_id) && r.is_relevant)
  let joined := selected.filterMap (fun r =>
    (bills.rows.find? (fun p => decide (p.1 = r.bill_id))).map
      (fun p => (p.2, r.reason)))
  let ordered := sortByKey (fun p => rowSortKey p.1) joined
  if ordered.isEmpty then
    .error ("Filter results not found for run_id: " ++ run_id)
  else
    let relevant_bills := ordered.map (fun p =>
      Json.obj [("bill_number", p.1.bill_number), ("title", p.1.title),
        ("url", p.1.url), ("reason", p.2)])
    let summary_row := (db.pipeline_runs.filter
      (fun p => decide (p.1 = run_id) && decide (p.2.stage = "filter"))).head?
    let summary :=
      match summary_row with
      | some p =>
        Json.obj [("total_analyzed", .num (p.2.bills_processed : ℚ)),
          ("relevant_count", .num (p.2.bills_relevant : ℚ)),
          ("not_relevant_count",
            .num ((p.2.bills_processed - relevant_bills.length : ℤ) : ℚ)),
          ("source_file", .str run_id)]
      | none =>
        Json.obj [("total_analyzed", .num 0),
          ("relevant_count", .num relevant_bills.length),
          ("not_relevant_count",
            .num ((0 - relevant_bills.length : ℤ) : ℚ)),
          ("source_file", .str run_id)]
    .ok (.obj [("summary", summary), ("relevant_bills", .arr relevant_bills)])

/-! ## Filter pass (`src/ai_filter_pass.py`)

`filter_batch` sends the batch to the LLM, then validates the parsed
response (a dict, per `_call_ai`'s contract): a missing `results` key or a
non-list `results` value raises `ValueError`; a valid response is returned
unchanged. -/

inductive FilterBatchError where
  | missingResults
  | resultsNotArray
deriving DecidableEq

/-- The validation half of `filter_batch`, applied to the parsed LLM
response.  An upstream API or JSON-parse failure propagates before this
point is reached, so the embedding takes the successfully parsed dict. -/
def filter_batch (result : List (String × Json)) :
    Except FilterBatchError Json :=
  match result.lookup "results" with
  | none => .error .missingResults
  | some v =>
    match v with
    | .arr _ => .ok (.obj result)
    | _ => .error .resultsNotArray

/-! ## Filter-pass orchestration (`scripts/run_filter_pass.py` `main`)

The loop slices the bill list into `(n + batch_size - 1) // batch_size`
batches, attempts each batch in order, extends the accumulated results on
success and skips the batch on any exception; the relevant / not-relevant
split happens afterwards from the concatenated results.  One batch attempt
(serialize, `filter_batch`, per-batch display) is an oracle returning the
validated `results` list or the exception message. -/

/-- `num_batches = (len(bills) + batch_size - 1) // batch_size`. -/
def numBatches (n batch_size : ℕ) : ℕ := (n + batch_size - 1) / batch_size

/-- `bills[batch_num*batch_size : (batch_num+1)*batch_size]`. -/
def batchSlice (bills : List Json) (batch_size i : ℕ) : List Json :=
  (bills.drop (i * batch_size)).take batch_size

/-- The batching loop: successful batches extend `all_results`, failing
batches are skipped with `continue`; the loop itself never raises. -/
def runFilterBatches (bills : List Json) (batch_size : ℕ)
    (attempt : ℕ → List Json → Except String (List Json)) : List Json :=
  (List.range (numBatches bills.length batch_size)).foldl
    (fun acc i =>
      match attempt i (batchSlice bills batch_size i) with
      | .ok rs => acc ++ rs
      | .error _ => acc) []

/-- The contribution of one batch to `all_results`: its validated
`results` list on success, nothing when the attempt raised. -/
def batchSuccessResults (attempt : ℕ → List Json → Except String (List Json))
    (bills : List Json) (batch_size i : ℕ) : List Json :=
  match attempt i (batchSlice bills batch_size i) with
  | .ok rs => rs
  | .error _ => []

/-- `bill['bill_number']` when present. -/
def billNumberOf (bill : Json) : Option Json :=
  bill.getKey "bill_number"

/-- `bills_by_number = {bill['bill_number']: bill for bill in bills}` as a
lookup: the last bill with the given number wins. -/
def billsByNumber (bills : List Json) (k : Json) : Option Json :=
  bills.reverse.find? (fun b => billNumberOf b == some k)

/-- Route one filter result: look the bill up by `bill_identifier` (with
the three-field placeholder as default) and append to the bucket selected
by the truthiness of `relevant`. -/
def organizeOne (bills : List Json) (acc : List Json × List Json)
    (result : Json) : List Json × List Json :=
  let bill_number := (result.getKey "bill_identifier").getD (.str "Unknown")
  let reason := (result.getKey "reason").getD (.str "No reason provided")
  let bill := (billsByNumber bills bill_number).getD
    (.obj [("bill_number", bill_number), ("title", .str "Unknown"),
      ("url", .str "N/A")])
  let item := Json.obj [("bill", bill), ("reason", reason)]
  if ((result.getKey "relevant").getD (.bool false)).truthy then
    (acc.1 ++ [item], acc.2)
  else
    (acc.1, acc.2 ++ [item])

/-- The post-loop organizing step over the concatenated results. -/
def organizeResults (bills all_results : List Json) :
    List Json × List Json :=
  all_results.foldl (organizeOne bills) ([], [])

/-- The whole run: batch loop first, partitioning only afterwards. -/
def runFilterPass (bills : List Json) (batch_size : ℕ)
    (attempt : ℕ → List Json → Except String (List Json)) :
    List Json × List Json :=
  organizeResults bills (runFilterBatches bills batch_size attempt)

/-! ## Hook system (`src/hook_system.py`)

A hook's two capabilities are oracles: `getCacheKey` (returning `none`
disables caching) and `process` (which may raise).  The framework cache is
keyed storage of JSON values; `_save_to_cache` writes only strings, dicts
and lists — for anything else it truncates the file, which destroys any
previous entry and makes later loads return `None`. -/

structure HookSpec where
  getCacheKey : Json → Json → Option String
  process : Json → Json → Except String Json

structure HookCache where
  enabled : Bool
  entries : List (String × Json)
deriving DecidableEq

/-- `_load_from_cache`: `None` without a cache dir or on a miss. -/
def HookCache.load (c : HookCache) (k : String) : Option Json :=
  if c.enabled then c.entries.lookup k else none

/-- Values `_save_to_cache` actually serializes. -/
def jsonCacheable : Json → Bool
  | .str _ => true
  | .obj _ => true
  | .arr _ => true
  | _ => false

/-- `_save_to_cache`: store serializable values; a non-serializable value
leaves an empty (hence unloadable) file behind. -/
def HookCache.save (c : HookCache) (k : String) (v : Json) : HookCache :=
  if c.enabled then
    if jsonCacheable v then ⟨true, (k, v) :: c.entries⟩
    else ⟨true, c.entries.filter (fun p => p.1 ≠ k)⟩
  else c

/-- One iteration of the `execute_hooks` loop: cache-key computation on the
current value, short-circuit on a cache hit, run-and-cache on a miss, and a
swallowed exception keeps the last successfully produced value. -/
def executeHookStep (context : Json) (st : HookCache × Json)
    (hook : HookSpec) : HookCache × Json :=
  match hook.getCacheKey st.2 context with
  | some k =>
    match st.1.load k with
    | some cached => (st.1, cached)
    | none =>
      match hook.process st.2 context with
      | .ok v => (st.1.save k v, v)
      | .error _ => st
  | none =>
    match hook.process st.2 context with
    | .ok v => (st.1, v)
    | .error _ => st

/-- `execute_hooks`: registration order, each hook seeded with the previous
output. -/
def execute_hooks (cache : HookCache) (hooks : List HookSpec) (data : Json)
    (context : Json) : HookCache × Json :=
  hooks.foldl (executeHookStep context) (cache, data)

/-! ## Analysis pass (`src/ai_analysis_pass.py` `analyze_data`)

The enrichment fetch and the LLM call are oracles: `full_bill_text` is the
fetched text (`None` when enrichment was skipped or failed), `timing` is
the accumulated timing dict, and `AIOutcome` is what `_call_ai` produced —
a parsed payload, a `json.JSONDecodeError`, or any other exception.  All
failure paths are caught inside `analyze_data` itself and produce the
degraded `{error, full_bill_text, timing}` dict. -/

inductive AIOutcome where
  | ok (payload : Json)
  | parseError (msg : String)
  | exn (msg : String)

/-- `full_bill_text` as it appears in a result dict (`None` is `null`). -/
def fbtJson : Option String → Json
  | some s => .str s
  | none => .null

/-- `if full_bill_text:` — a fetched text is attached only when truthy. -/
def fbtTruthy : Option String → Bool
  | some s => s ≠ ""
  | none => false

/-- The degraded result built by both `except` branches of `analyze_data`. -/
def degradedResult (msg : String) (full_bill_text : Option String)
    (timing : Json) : Json :=
  .obj [("error", .str msg), ("full_bill_text", fbtJson full_bill_text),
    ("timing", timing)]

/-- `analyze_data`, downstream of prompt assembly: on success the parsed
payload gains `full_bill_text` (when truthy) and `timing`; a non-dict
payload makes the in-`try` item assignment raise, landing in the generic
`except`; parse and other failures return the degraded dict. -/
def analyze_data (full_bill_text : Option String) (timing : Json)
    (ai : AIOutcome) : Json :=
  match ai with
  | .ok (.obj kvs) =>
    let kvs1 := if fbtTruthy full_bill_text then
        pyDictSet kvs "full_bill_text" (fbtJson full_bill_text)
      else kvs
    .obj (pyDictSet kvs1 "timing" timing)
  | .ok _ =>
    degradedResult "TypeError: item assignment on non-dict payload"
      full_bill_text timing
  | .parseError msg =>
    degradedResult ("JSON parsing failed: " ++ msg) full_bill_text timing
  | .exn msg => degradedResult msg full_bill_text timing

/-! ## Analysis run loop (`scripts/run_analysis_pass.py` `main`, step 6)

Per bill, in source order: the log statements before the `try` subscript
`bill['bill_number']`, `bill['title']` and `bill['url']` — a missing key
there raises `KeyError` uncaught and aborts the whole run.  Inside the
`try`, `bill_lookup.get(bill_number)` raises `TypeError` on an unhashable
(list/dict) bill number, caught by the per-bill `except`, which appends an
`{error, is_relevant: false}` placeholder as the bill's only row; past
that, an unresolvable or falsy `bill_id` skips the bill with a warning
(`continue`), so it reaches neither bucket; otherwise `analyze_data` runs
— an enrichment-phase exception escaping its internal catch (for example
a cache read error or a non-request API failure; the LLM call itself and
the parse are caught inside) is likewise caught by the loop `except` and
appends the placeholder as the only row — and the result is routed by the
truthiness of `is_relevant` (absent on degraded results, so they default
to the not-relevant bucket).  The display block after the routing append
is still inside the `try`; if it raises (possible for successful payloads
of unexpected shapes), the `except` appends a second placeholder row.
The nondeterministic effects are an oracle `BillOracle`. -/

structure BillOracle where
  /-- An exception between the skip check and the routing append that the
  loop `except` catches: an enrichment-phase failure escaping
  `analyze_data`'s internal catch, or a prompt-format error. -/
  preRaise : Option String
  full_bill_text : Option String
  timing : Json
  ai : AIOutcome
  /-- An exception raised by the display block (lines 268-300) after the
  routing append, caught by the per-bill `except` at line 302. -/
  displayRaise : Option String

/-- `create_bill_lookup` + `bill_lookup.get(bill_number)`: dict
comprehension keyed by `bill_number`, last binding wins. -/
def billLookupGet (source_bills : List Json) (k : Json) : Option Json :=
  source_bills.reverse.find? (fun b => billNumberOf b == some k)

/-- `bill_id = source_bill.get('bill_id') if source_bill else None`,
with the subsequent `if bill_id:` truthiness test. -/
def resolvedBillId (source_bills : List Json) (bill_number : Json) : Json :=
  match billLookupGet source_bills bill_number with
  | some (.obj skvs) => pyDictGet skvs "bill_id"
  | _ => .null

/-- The `bill['bill_number']` / `bill['title']` / `bill['url']` subscripts
in the log statements before the `try` (lines 232-235): the bill number
when all three keys exist, `none` for the uncaught `KeyError` that aborts
the run. -/
def loopHeaderKeys (bill : Json) : Option Json :=
  match bill.getKey "bill_number" with
  | none => none
  | some bn =>
    match bill.getKey "title" with
    | none => none
    | some _ =>
      match bill.getKey "url" with
      | none => none
      | some _ => some bn

/-- Values usable as Python dict keys: `bill_lookup.get(bill_number)`
raises `TypeError` when the bill number is a list or dict. -/
def jsonHashable : Json → Bool
  | .arr _ => false
  | .obj _ => false
  | _ => true

/-- `True` exactly when the loop takes the `continue` that skips the bill:
the header subscripts succeed, the bill number is hashable, and no truthy
`bill_id` resolves.  (A missing header key crashes the run before the
skip check; an unhashable bill number raises at the lookup into the
`except` instead.) -/
def billSkipped (source_bills : List Json) (bill : Json) : Bool :=
  match loopHeaderKeys bill with
  | some bn => jsonHashable bn && ¬(resolvedBillId source_bills bn).truthy
  | none => false

/-- The `{'bill': ..., 'analysis': ...}` row appended to a bucket. -/
def analysisRow (bill analysis : Json) : Json :=
  .obj [("bill", bill), ("analysis", analysis)]

/-- The placeholder the per-bill `except` branch appends. -/
def loopErrorAnalysis (msg : String) : Json :=
  .obj [("error", .str msg), ("is_relevant", .bool false)]

/-- One iteration of the analysis loop over the
`(relevant_results, not_relevant_results)` accumulator; `.error` is the
uncaught `KeyError` from the pre-`try` log statements, which aborts the
run. -/
def processBill (source_bills : List Json) (orc : BillOracle)
    (acc : List Json × List Json) (bill : Json) :
    Except String (List Json × List Json) :=
  match loopHeaderKeys bill with
  | none => .error "KeyError: bill header key missing before the try block"
  | some bn =>
    if ¬jsonHashable bn then
      .ok (acc.1, acc.2 ++ [analysisRow bill
        (loopErrorAnalysis "TypeError: unhashable bill_number")])
    else if ¬(resolvedBillId source_bills bn).truthy then .ok acc
    else
      match orc.preRaise with
      | some msg => .ok (acc.1, acc.2 ++ [analysisRow bill (loopErrorAnalysis msg)])
      | none =>
        let analysis := analyze_data orc.full_bill_text orc.timing orc.ai
        let routed :=
          if ((analysis.getKey "is_relevant").getD (.bool false)).truthy then
            (acc.1 ++ [analysisRow bill analysis], acc.2)
          else
            (acc.1, acc.2 ++ [analysisRow bill analysis])
        match orc.displayRaise with
        | some msg =>
          .ok (routed.1, routed.2 ++ [analysisRow bill (loopErrorAnalysis msg)])
        | none => .ok routed

/-- How many rows one iteration appends across both buckets: `0` when
skipped, `1` normally (including all caught single-exception paths), `2`
when the display block raises after the routing append.  (Only meaningful
when the run does not crash.) -/
def billContribution (source_bills : List Json) (orc : BillOracle)
    (bill : Json) : ℕ :=
  match loopHeaderKeys bill with
  | none => 0
  | some bn =>
    if ¬jsonHashable bn then 1
    else if ¬(resolvedBillId source_bills bn).truthy then 0
    else
      match orc.preRaise with
      | some _ => 1
      | none =>
        match orc.displayRaise with
        | some _ => 2
        | none => 1

/-- Total rows appended by a run starting at bill index `i`. -/
def bucketContributions (source_bills : List Json) (orcs : ℕ → BillOracle) :
    ℕ → List Json → ℕ
  | _, [] => 0
  | i, b :: bs =>
    billContribution source_bills (orcs i) b +
      bucketContributions source_bills orcs (i + 1) bs

/-- The loop over the remaining bills, carrying the index of the next one
and the accumulated buckets; an uncaught exception aborts the whole
loop. -/
def runAnalysisAux (source_bills : List Json) (orcs : ℕ → BillOracle) :
    ℕ → List Json × List Json → List Json →
      Except String (List Json × List Json)
  | _, acc, [] => .ok acc
  | i, acc, b :: bs =>
    match processBill source_bills (orcs i) acc b with
    | .error e => .error e
    | .ok acc1 => runAnalysisAux source_bills orcs (i + 1) acc1 bs

/-- The whole loop: bills in order, one oracle per index. -/
def runAnalysisLoop (source_bills : List Json) (bills : List Json)
    (orcs : ℕ → BillOracle) : Except String (List Json × List Json) :=
  runAnalysisAux source_bills orcs 0 ([], []) bills

/-! # Theorems -/

/-! ## General helper lemmas -/

theorem lookup_cons_self {β : Type} (k : String) (v : β)
    (l : List (String × β)) : ((k, v) :: l).lookup k = some v := by
  simp [List.lookup]

theorem lookup_cons_ne {β : Type} {k k' : String} (v : β)
    (l : List (String × β)) (h : k' ≠ k) :
    ((k, v) :: l).lookup k' = l.lookup k' := by
  have hb : (k' == k) = false := beq_eq_false_iff_ne.mpr h
  simp [List.lookup, hb]

theorem str_append_cancel_left {a b c : String} (h : a ++ b = a ++ c) :
    b = c := by
  have hd := congrArg String.data h
  simp [String.data_append] at hd
  exact String.ext hd

theorem str_ne_of_data_length_ne {a b : String}
    (h : a.data.length ≠ b.data.length) : a ≠ b :=
  fun e => h (congrArg (fun s => s.data.length) e)

theorem analysis_paths_ne (run_id : String) :
    ("analyzed/" ++ analysisPrefix run_id ++ "_relevant.json" : String) ≠
      "analyzed/" ++ analysisPrefix run_id ++ "_not_relevant.json" := by
  intro h
  have h2 : ("_relevant.json" : String) = "_not_relevant.json" :=
    str_append_cancel_left h
  exact absurd h2 (by decide)

/-! ## C10: empty analysis buckets raise on load -/

/-- C10: on the named-object backends, `load_analysis_results` raises
`FileNotFoundError` exactly when both loaded buckets are falsy — including
when both files exist and each holds an empty list — so saving a pair of
empty lists and then loading the same `run_id` raises instead of returning
`([], [])`. -/
theorem load_analysis_results_empty_raises :
    ∀ (st : FileStore) (run_id : String),
      (load_analysis_results st run_id =
          .error ("Analysis results not found for run_id: " ++ run_id) ↔
        ¬((st.getJson
            ("analyzed/" ++ analysisPrefix run_id ++ "_relevant.json")).getD
              (.arr [])).truthy ∧
        ¬((st.getJson
            ("analyzed/" ++ analysisPrefix run_id ++ "_not_relevant.json")).getD
              (.arr [])).truthy) ∧
      load_analysis_results
          (save_analysis_results st run_id (.arr []) (.arr [])) run_id =
        .error ("Analysis results not found for run_id: " ++ run_id) := by
  intro st rid
  refine ⟨?_, ?_⟩
  · by_cases hc :
      ¬((st.getJson
          ("analyzed/" ++ analysisPrefix rid ++ "_relevant.json")).getD
            (.arr [])).truthy ∧
      ¬((st.getJson
          ("analyzed/" ++ analysisPrefix rid ++ "_not_relevant.json")).getD
            (.arr [])).truthy
    · simp [load_analysis_results, hc]
    · simp [load_analysis_results, hc]
  · have hne := analysis_paths_ne rid
    have h1 :
        (save_analysis_results st rid (.arr []) (.arr [])).getJson
          ("analyzed/" ++ analysisPrefix rid ++ "_relevant.json") =
          some (.arr []) := by
      simp only [save_analysis_results, FileStore.putJson, FileStore.getJson]
      rw [lookup_cons_ne _ _ hne, lookup_cons_self]
    have h2 :
        (save_analysis_results st rid (.arr []) (.arr [])).getJson
          ("analyzed/" ++ analysisPrefix rid ++ "_not_relevant.json") =
          some (.arr []) := by
      simp only [save_analysis_results, FileStore.putJson, FileStore.getJson]
      rw [lookup_cons_self]
    simp [load_analysis_results, h1, h2, Json.truthy]

/-! ## C6: filtered-results name-variant resolution -/

theorem loadFilteredLoop_eq_firstHit (st : FileStore) (fs : List String) :
    loadFilteredLoop st fs =
      match (fs.filterMap
          (fun f => st.getJson (filteredCandidatePath f))).head? with
      | some v => .ok v
      | none => .error "Filter results not found" := by
  induction fs with
  | nil => rfl
  | cons f fs ih =>
    unfold loadFilteredLoop
    cases h : st.getJson (filteredCandidatePath f) with
    | some d => simp [List.filterMap_cons, h]
    | none => simp [List.filterMap_cons, h, ih]

/-- C6 counterexample: the relational backend never tries the name
variants.  With filter rows stored under the run id `filter_results_r1`,
loading `r1` — whose claimed candidate list includes exactly that
`filter_results_` variant — raises `NotFound` without probing it, while
loading the exact id succeeds. -/
theorem db_load_filtered_no_variants_counterexample :
    db_save_filtered_results
        (db_save_raw_data BillsTable.empty "ct_bills_2025"
          (.obj [("bills", .arr [.obj [("bill_id", .num 1),
            ("bill_number", .str "SB001"), ("title", .str "T"),
            ("url", .str "U")]])]))
        FilterDB.empty "filter_results_r1"
        [("summary", .obj [("total_analyzed", .num 1),
            ("relevant_count", .num 1), ("not_relevant_count", .num 0)]),
          ("relevant_bills", .arr [.obj [("bill_number", .str "SB001"),
            ("reason", .str "why")]])] =
      .ok ⟨[⟨.num 1, "filter_results_r1", true, .str "why"⟩],
        [("filter_results_r1", ⟨"filter", "completed", 1, 1⟩)]⟩ ∧
    db_load_filtered_results
        (db_save_raw_data BillsTable.empty "ct_bills_2025"
          (.obj [("bills", .arr [.obj [("bill_id", .num 1),
            ("bill_number", .str "SB001"), ("title", .str "T"),
            ("url", .str "U")]])]))
        ⟨[⟨.num 1, "filter_results_r1", true, .str "why"⟩],
          [("filter_results_r1", ⟨"filter", "completed", 1, 1⟩)]⟩ "r1" =
      .error "Filter results not found for run_id: r1" ∧
    db_load_filtered_results
        (db_save_raw_data BillsTable.empty "ct_bills_2025"
          (.obj [("bills", .arr [.obj [("bill_id", .num 1),
            ("bill_number", .str "SB001"), ("title", .str "T"),
            ("url", .str "U")]])]))
        ⟨[⟨.num 1, "filter_results_r1", true, .str "why"⟩],
          [("filter_results_r1", ⟨"filter", "completed", 1, 1⟩)]⟩
        "filter_results_r1" =
      .ok (.obj [("summary", .obj [("total_analyzed", .num 1),
          ("relevant_count", .num 1), ("not_relevant_count", .num 0),
          ("source_file", .str "filter_results_r1")]),
        ("relevant_bills", .arr [.obj [("bill_number", .str "SB001"),
          ("title", .str "T"), ("url", .str "U"),
          ("reason", .str "why")]])]) ∧
    ("filter_results_" ++ "r1") ∈ possibleFilenames "r1" := by
  refine ⟨by decide, by decide, by decide, by decide⟩

/-- C6 (amended): on the named-object backends (local file, blob),
`load_filtered_results` probes the candidate names in the fixed order —
the `run_id` exactly, the prefixed `run_id`, then each with the `.json`
extension — returns the content of the first candidate that exists, and
fails with `NotFound` exactly when every variant is absent; the relational
backend instead queries its `filter_results` table by the exact `run_id`
only. -/
theorem load_filtered_results_tries_variants_in_order :
    ∀ (st : FileStore) (run_id : String),
      possibleFilenames run_id =
        [run_id, "filter_results_" ++ run_id, run_id ++ ".json",
          "filter_results_" ++ run_id ++ ".json"] ∧
      load_filtered_results st run_id =
        (match ((possibleFilenames run_id).filterMap
            (fun f => st.getJson (filteredCandidatePath f))).head? with
        | some v => .ok v
        | none => .error "Filter results not found") ∧
      (load_filtered_results st run_id =
          .error "Filter results not found" ↔
        ∀ f ∈ possibleFilenames run_id,
          st.getJson (filteredCandidatePath f) = none) := by
  intro st rid
  refine ⟨rfl, loadFilteredLoop_eq_firstHit st _, ?_⟩
  rw [load_filtered_results, loadFilteredLoop_eq_firstHit st _]
  cases h : ((possibleFilenames rid).filterMap
      (fun f => st.getJson (filteredCandidatePath f))).head? with
  | some v =>
    simp only [h]
    constructor
    · intro hcontra; exact absurd hcontra (by simp)
    · intro hall
      have : (possibleFilenames rid).filterMap
          (fun f => st.getJson (filteredCandidatePath f)) = [] :=
        List.filterMap_eq_nil_iff.mpr hall
      rw [this] at h
      exact absurd h (by simp)
  | none =>
    simp only [h]
    constructor
    · intro _
      have hnil := List.head?_eq_none_iff.mp h
      exact List.filterMap_eq_nil_iff.mp hnil
    · intro _; trivial

/-! ## C3: save/load round-trips -/

/-- C3 counterexample: the round-trip fails as universally stated.  Saving
two empty analysis buckets and loading them back raises `NotFound` instead
of returning `([], [])`; and on the relational backend, `save_raw_data`
followed by `load_raw_data` of the same name returns the reconstructed
`{summary: {masterlist, total}}` document, not the `{bills: [...]}` value
that was saved. -/
theorem storage_round_trip_counterexample :
    load_analysis_results
        (save_analysis_results FileStore.empty "r1" (.arr []) (.arr [])) "r1" =
      .error "Analysis results not found for run_id: r1" ∧
    db_load_raw_data
        (db_save_raw_data BillsTable.empty "ct_bills_2025"
          (.obj [("bills", .arr [.obj [("bill_id", .num 1),
            ("bill_number", .str "SB001"), ("state", .str "CT"),
            ("year", .num 2025)]])]))
        "ct_bills_2025" =
      .ok (.obj [("summary", .obj [("masterlist", .arr [.obj [("bill_id", .num 1),
        ("bill_number", .str "SB001"), ("state", .str "CT"),
        ("year", .num 2025)]]), ("total", .num 1)])]) ∧
    (Json.obj [("summary", .obj [("masterlist", .arr [.obj [("bill_id", .num 1),
        ("bill_number", .str "SB001"), ("state", .str "CT"),
        ("year", .num 2025)]]), ("total", .num 1)])]) ≠
      .obj [("bills", .arr [.obj [("bill_id", .num 1),
        ("bill_number", .str "SB001"), ("state", .str "CT"),
        ("year", .num 2025)]])] := by
  refine ⟨by decide, by decide, by decide⟩

/-- C3 (amended): on the named-object backends (local file, blob), saving a
value under a key and then loading that key returns the saved value for raw
data, bill cache and bill-text cache unconditionally; for filtered results
whenever no stale `{run_id}.json` object shadows the first probe; and for
analysis results whenever at least one saved bucket is truthy (both falsy
raises `NotFound`).  The relational backend decomposes and reconstructs
rather than round-tripping. -/
theorem storage_round_trip_named_backends :
    ∀ (st : FileStore) (filename run_id : String)
      (v relevant not_relevant : Json) (bill_id : ℤ) (doc_id content : String),
      load_raw_data (save_raw_data st filename v) filename = .ok v ∧
      (strEndsWith run_id ".json" = false →
        strEndsWith ("filter_results_" ++ run_id) ".json" = false →
        (strStartsWith run_id "filter_results_" = true ∨
          st.getJson ("filtered/" ++ run_id ++ ".json") = none) →
        load_filtered_results (save_filtered_results st run_id v) run_id =
          .ok v) ∧
      ((relevant.truthy ∨ not_relevant.truthy) →
        load_analysis_results
            (save_analysis_results st run_id relevant not_relevant) run_id =
          .ok (relevant, not_relevant)) ∧
      get_bill_from_cache (save_bill_to_cache st bill_id v) bill_id = some v ∧
      get_bill_text_from_cache (save_bill_text_to_cache st doc_id content)
          doc_id = some content := by
  intro st filename rid v relevant not_relevant bill_id doc_id content
  refine ⟨?_, ?_, ?_, ?_, ?_⟩
  · simp [load_raw_data, save_raw_data, FileStore.putJson, FileStore.getJson,
      lookup_cons_self]
  · intro h1 h2 h3
    by_cases hs : strStartsWith rid "filter_results_"
    · have hname : filteredSaveName rid = rid := by
        simp [filteredSaveName, hs, stripJsonExt, h1]
      rw [load_filtered_results, possibleFilenames]
      rw [loadFilteredLoop]
      have hpath : filteredCandidatePath rid = "filtered/" ++ rid ++ ".json" := by
        simp [filteredCandidatePath, h1]
      rw [hpath]
      have : (save_filtered_results st rid v).getJson
          ("filtered/" ++ rid ++ ".json") = some v := by
        simp only [save_filtered_results, hname, FileStore.putJson,
          FileStore.getJson]
        exact lookup_cons_self _ _ _
      rw [this]
    · have hs' : strStartsWith rid "filter_results_" = false := by
        simpa using hs
      have hname : filteredSaveName rid = "filter_results_" ++ rid := by
        simp [filteredSaveName, hs', stripJsonExt, h2]
      have hshadow : st.getJson ("filtered/" ++ rid ++ ".json") = none := by
        rcases h3 with h | h
        · rw [hs'] at h; exact absurd h (by simp)
        · exact h
      have hne : ("filtered/" ++ rid ++ ".json" : String) ≠
          "filtered/" ++ ("filter_results_" ++ rid) ++ ".json" := by
        apply str_ne_of_data_length_ne
        have e9 : ("filtered/" : String).data.length = 9 := by decide
        have e5 : (".json" : String).data.length = 5 := by decide
        have e15 : ("filter_results_" : String).data.length = 15 := by decide
        simp only [String.data_append, List.length_append, e9, e5, e15]
        omega
      rw [load_filtered_results, possibleFilenames]
      rw [loadFilteredLoop]
      have hpath1 : filteredCandidatePath rid =
          "filtered/" ++ rid ++ ".json" := by
        simp [filteredCandidatePath, h1]
      rw [hpath1]
      have hmiss : (save_filtered_results st rid v).getJson
          ("filtered/" ++ rid ++ ".json") = none := by
        simp only [save_filtered_results, hname, FileStore.putJson,
          FileStore.getJson]
        rw [lookup_cons_ne _ _ hne]
        exact hshadow
      rw [hmiss, loadFilteredLoop]
      have hpath2 : filteredCandidatePath ("filter_results_" ++ rid) =
          "filtered/" ++ ("filter_results_" ++ rid) ++ ".json" := by
        simp [filteredCandidatePath, h2]
      rw [hpath2]
      have hhit : (save_filtered_results st rid v).getJson
          ("filtered/" ++ ("filter_results_" ++ rid) ++ ".json") = some v := by
        simp only [save_filtered_results, hname, FileStore.putJson,
          FileStore.getJson]
        exact lookup_cons_self _ _ _
      rw [hhit]
  · intro htruthy
    have hne := analysis_paths_ne rid
    have h1 : (save_analysis_results st rid relevant not_relevant).getJson
        ("analyzed/" ++ analysisPrefix rid ++ "_relevant.json") =
        some relevant := by
      simp only [save_analysis_results, FileStore.putJson, FileStore.getJson]
      rw [lookup_cons_ne _ _ hne, lookup_cons_self]
    have h2 : (save_analysis_results st rid relevant not_relevant).getJson
        ("analyzed/" ++ analysisPrefix rid ++ "_not_relevant.json") =
        some not_relevant := by
      simp only [save_analysis_results, FileStore.putJson, FileStore.getJson]
      rw [lookup_cons_self]
    rw [load_analysis_results, h1, h2]
    simp only [Option.getD_some]
    rcases htruthy with h | h
    · rw [if_neg (by simp [h])]
    · rw [if_neg (by simp [h])]
  · simp [get_bill_from_cache, save_bill_to_cache, FileStore.putJson,
      FileStore.getJson, lookup_cons_self]
  · simp [get_bill_text_from_cache, save_bill_text_to_cache,
      FileStore.putText, FileStore.getText, lookup_cons_self]

/-- C3 witness: the guarded round-trips at concrete inputs — a fresh store,
run id `run7`, a nested filtered document, and one non-empty analysis
bucket. -/
theorem storage_round_trip_named_backends_witness :
    load_filtered_results
        (save_filtered_results FileStore.empty "run7"
          (.obj [("summary", .obj [("total", .num 2)]),
            ("relevant_bills", .arr [.obj [("bill_number", .str "SB001")]])]))
        "run7" =
      .ok (.obj [("summary", .obj [("total", .num 2)]),
        ("relevant_bills", .arr [.obj [("bill_number", .str "SB001")]])]) ∧
    load_analysis_results
        (save_analysis_results FileStore.empty "run7"
          (.arr [.obj [("bill", .null)]]) (.arr [])) "run7" =
      .ok (.arr [.obj [("bill", .null)]], .arr []) := by
  have h1 := storage_round_trip_named_backends FileStore.empty "f" "run7"
    (.obj [("summary", .obj [("total", .num 2)]),
      ("relevant_bills", .arr [.obj [("bill_number", .str "SB001")]])])
    (.arr [.obj [("bill", .null)]]) (.arr []) 5 "doc" "t"
  have h2 := storage_round_trip_named_backends FileStore.empty "f" "run7"
    (.arr []) (.arr [.obj [("bill", .null)]]) (.arr []) 5 "doc" "t"
  exact ⟨h1.2.1 (by decide) (by decide) (Or.inr (by decide)),
    h2.2.2.1 (Or.inl (by decide))⟩

/-! ## C4 / C5: format normalizer -/

theorem mapExcept_ok_forall₂ {α β ε : Type} {f : α → Except ε β} :
    ∀ {xs : List α} {ys : List β}, mapExcept f xs = .ok ys →
      List.Forall₂ (fun x y => f x = .ok y) xs ys := by
  intro xs
  induction xs with
  | nil =>
    intro ys h
    rw [mapExcept] at h
    injection h with h
    rw [← h]
    exact .nil
  | cons x xs ih =>
    intro ys h
    rw [mapExcept] at h
    cases hf : f x with
    | error e => rw [hf] at h; exact absurd h (by simp)
    | ok y =>
      rw [hf] at h
      cases hm : mapExcept f xs with
      | error e => rw [hm] at h; exact absurd h (by simp)
      | ok ys0 =>
        rw [hm] at h
        injection h with h
        rw [← h]
        exact .cons hf (ih hm)

theorem forall₂_mem_right {α β : Type} {R : α → β → Prop}
    {xs : List α} {ys : List β} (h : List.Forall₂ R xs ys) :
    ∀ y ∈ ys, ∃ x ∈ xs, R x y := by
  induction h with
  | nil => intro y hy; exact absurd hy (by simp)
  | cons hR _ ih =>
    intro y hy
    rcases List.mem_cons.mp hy with h | h
    · exact ⟨_, List.mem_cons_self _ _, h ▸ hR⟩
    · rcases ih y h with ⟨x, hx, hxy⟩
      exact ⟨x, List.mem_cons_of_mem _ hx, hxy⟩

theorem normalizeOriginalBill_ok_keys {b r : Json}
    (h : normalizeOriginalBill b = .ok r) :
    r.keys = ["bill_number", "title", "url", "reason", "extra_metadata"] := by
  cases b with
  | obj kvs =>
    rw [normalizeOriginalBill] at h
    injection h with h
    rw [← h]
    rfl
  | null => exact nomatch h
  | bool b => exact nomatch h
  | num q => exact nomatch h
  | str s => exact nomatch h
  | arr xs => exact nomatch h

theorem normalizeAlanBill_ok_keys {b r : Json}
    (h : normalizeAlanBill b = .ok r) :
    r.keys = ["bill_number", "title", "url", "reason", "extra_metadata"] := by
  cases b with
  | obj kvs =>
    rw [normalizeAlanBill] at h
    cases hs : jsonToRat? ((kvs.lookup "similarity_score").getD (.num 0)) with
    | none => rw [hs] at h; exact absurd h (by simp)
    | some s =>
      cases hd : jsonToRat? ((kvs.lookup "distance").getD (.num 0)) with
      | none => rw [hs, hd] at h; exact absurd h (by simp)
      | some d =>
        rw [hs, hd] at h
        injection h with h
        rw [← h]
        rfl
  | null => exact nomatch h
  | bool b => exact nomatch h
  | num q => exact nomatch h
  | str s => exact nomatch h
  | arr xs => exact nomatch h

theorem normalize_filter_results_original {data : List (String × Json)}
    {bills : List Json}
    (h1 : data.lookup "relevant_bills" = some (.arr bills)) :
    normalize_filter_results data = mapExcept normalizeOriginalBill bills := by
  unfold normalize_filter_results detect_format normalize_original_format
  rw [h1]
  rfl

theorem normalize_filter_results_alan {data : List (String × Json)}
    {bills : List Json}
    (h1 : data.lookup "relevant_bills" = none)
    (h2 : data.lookup "results" = some (.arr bills)) :
    normalize_filter_results data = mapExcept normalizeAlanBill bills := by
  unfold normalize_filter_results detect_format normalize_alan_format
  rw [h1, h2]
  rfl

theorem normalize_filter_results_unknown {data : List (String × Json)}
    (h1 : data.lookup "relevant_bills" = none)
    (h2 : data.lookup "results" = none) :
    normalize_filter_results data =
      .error (.unknownFormat (data.map Prod.fst)) := by
  unfold normalize_filter_results detect_format
  rw [h1, h2]
  rfl

/-- C4 counterexample: an empty bill dict in Shape A normalizes to a record
whose `bill_number`, `title`, `url` and `reason` are all `None` — not
non-empty values — with no error raised. -/
theorem normalize_nonempty_fields_counterexample :
    normalize_filter_results [("relevant_bills", Json.arr [Json.obj []])] =
      .ok [.obj [("bill_number", .null), ("title", .null), ("url", .null),
        ("reason", .null), ("extra_metadata", .obj [])]] ∧
    (Json.obj [("bill_number", .null), ("title", .null), ("url", .null),
        ("reason", .null), ("extra_metadata", .obj [])]).getKey "bill_number" =
      some .null := by
  exact ⟨by decide, by decide⟩

/-- C4 (amended): for both recognized shapes `normalize` yields exactly one
record per input bill carrying the five canonical fields, each field copied
from the input (so non-empty exactly when the input field is), and an input
dict with neither key fails with `UnrecognizedFormat` listing the top-level
keys actually found — no silent fallback. -/
theorem normalize_shape_records_and_unknown_format_error :
    ∀ (data : List (String × Json)) (bills out : List Json),
      (data.lookup "relevant_bills" = none → data.lookup "results" = none →
        normalize_filter_results data =
          .error (.unknownFormat (data.map Prod.fst))) ∧
      (data.lookup "relevant_bills" = some (.arr bills) →
        normalize_filter_results data = .ok out →
        out.length = bills.length ∧
        ∀ r ∈ out,
          r.keys = ["bill_number", "title", "url", "reason",
            "extra_metadata"]) ∧
      (data.lookup "relevant_bills" = none →
        data.lookup "results" = some (.arr bills) →
        normalize_filter_results data = .ok out →
        out.length = bills.length ∧
        ∀ r ∈ out,
          r.keys = ["bill_number", "title", "url", "reason",
            "extra_metadata"]) ∧
      (∀ kvs : List (String × Json),
        normalizeOriginalBill (.obj kvs) =
          .ok (.obj [("bill_number", pyDictGet kvs "bill_number"),
            ("title", pyDictGet kvs "title"),
            ("url", pyDictGet kvs "url"),
            ("reason", pyDictGet kvs "reason"),
            ("extra_metadata", .obj [])])) := by
  intro data bills out
  refine ⟨?_, ?_, ?_, fun _ => rfl⟩
  · intro h1 h2
    exact normalize_filter_results_unknown h1 h2
  · intro h1 hn
    rw [normalize_filter_results_original h1] at hn
    have hf := mapExcept_ok_forall₂ hn
    refine ⟨hf.length_eq.symm, ?_⟩
    intro r hr
    rcases forall₂_mem_right hf r hr with ⟨b, _, hb⟩
    exact normalizeOriginalBill_ok_keys hb
  · intro h1 h2 hn
    rw [normalize_filter_results_alan h1 h2] at hn
    have hf := mapExcept_ok_forall₂ hn
    refine ⟨hf.length_eq.symm, ?_⟩
    intro r hr
    rcases forall₂_mem_right hf r hr with ⟨b, _, hb⟩
    exact normalizeAlanBill_ok_keys hb

/-- C4 witness: both recognized shapes and the error path at concrete
documents. -/
theorem normalize_shape_records_witness :
    ([Json.obj [("bill_number", .str "SB001"), ("title", .str "An Act"),
        ("url", .str "u"), ("reason", .str "why")]] : List Json).length =
      1 ∧
    normalize_filter_results [("x", .num 1), ("y", .null)] =
      .error (.unknownFormat ["x", "y"]) := by
  have h := normalize_shape_records_and_unknown_format_error
    [("relevant_bills", .arr [.obj [("bill_number", .str "SB001"),
      ("title", .str "An Act"), ("url", .str "u"), ("reason", .str "why")]])]
    [.obj [("bill_number", .str "SB001"), ("title", .str "An Act"),
      ("url", .str "u"), ("reason", .str "why")]]
    [.obj [("bill_number", .str "SB001"), ("title", .str "An Act"),
      ("url", .str "u"), ("reason", .str "why"), ("extra_metadata", .obj [])]]
  have h2 := normalize_shape_records_and_unknown_format_error
    [("x", .num 1), ("y", .null)] [] []
  refine ⟨?_, h2.1 (by decide) (by decide)⟩
  have := (h.2.1 (by decide) (by decide)).1
  simp at this
  simp [this]

theorem fmt4_four_decimals (q : ℚ) :
    ∃ intPart : String, ∃ frac : ℕ,
      fmt4 q = intPart ++ "." ++ pad4 frac ∧ (pad4 frac).length = 4 := by
  refine ⟨(if q.num < 0 then "-" else "") ++
    natToStr ((roundHalfEvenInt ((q.num.natAbs : ℤ) * 10000)
      (q.den : ℤ)).toNat / 10000),
    (roundHalfEvenInt ((q.num.natAbs : ℤ) * 10000) (q.den : ℤ)).toNat % 10000,
    rfl, rfl⟩

/-- C5: every Shape-B record carries a `reason` that is exactly the fixed
template around the 4-decimal renderings of the bill's similarity score and
distance (defaulting to `0`), a `bill_number` equal to the input `number`
field, and an `extra_metadata` object with exactly the seven listed keys;
`fmt4` always produces exactly four digits after the decimal point. -/
theorem alan_records_reason_and_metadata :
    ∀ (data : List (String × Json)) (bills out : List Json),
      data.lookup "relevant_bills" = none →
      data.lookup "results" = some (.arr bills) →
      normalize_filter_results data = .ok out →
      List.Forall₂ (fun b r => normalizeAlanBill b = .ok r) bills out ∧
      (∀ (kvs : List (String × Json)) (r : Json),
        normalizeAlanBill (.obj kvs) = .ok r →
        ∃ s d : ℚ,
          jsonToRat? ((kvs.lookup "similarity_score").getD (.num 0)) =
            some s ∧
          jsonToRat? ((kvs.lookup "distance").getD (.num 0)) = some d ∧
          r.getKey "reason" = some (.str ("Vector similarity match (score: " ++
            fmt4 s ++ ", distance: " ++ fmt4 d ++ ")")) ∧
          r.getKey "bill_number" = some (pyDictGet kvs "number") ∧
          ∃ em : List (String × Json),
            r.getKey "extra_metadata" = some (.obj em) ∧
            em.map Prod.fst = ["bill_id", "status_date", "last_action",
              "year", "session", "similarity_score", "distance"] ∧
            em.lookup "similarity_score" =
              some ((kvs.lookup "similarity_score").getD (.num 0)) ∧
            em.lookup "distance" =
              some ((kvs.lookup "distance").getD (.num 0))) ∧
      (∀ q : ℚ, ∃ intPart : String, ∃ frac : ℕ,
        fmt4 q = intPart ++ "." ++ pad4 frac ∧ (pad4 frac).length = 4) := by
  intro data bills out h1 h2 h3
  refine ⟨?_, ?_, fmt4_four_decimals⟩
  · rw [normalize_filter_results_alan h1 h2] at h3
    exact mapExcept_ok_forall₂ h3
  · intro kvs r h
    rw [normalizeAlanBill] at h
    cases hs : jsonToRat? ((kvs.lookup "similarity_score").getD (.num 0)) with
    | none => rw [hs] at h; exact absurd h (by simp)
    | some s =>
      cases hd : jsonToRat? ((kvs.lookup "distance").getD (.num 0)) with
      | none => rw [hs, hd] at h; exact absurd h (by simp)
      | some d =>
        rw [hs, hd] at h
        injection h with h
        refine ⟨s, d, rfl, rfl, ?_, ?_, ?_⟩
        · rw [← h]; rfl
        · rw [← h]; rfl
        · refine ⟨[("bill_id", pyDictGet kvs "bill_id"),
            ("status_date", pyDictGet kvs "status_date"),
            ("last_action", pyDictGet kvs "last_action"),
            ("year", pyDictGet kvs "year"),
            ("session", pyDictGet kvs "session"),
            ("similarity_score", (kvs.lookup "similarity_score").getD (.num 0)),
            ("distance", (kvs.lookup "distance").getD (.num 0))],
            ?_, rfl, rfl, rfl⟩
          rw [← h]; rfl

/-- C5 witness: a concrete Shape-B document (score and distance absent,
defaulting to `0`) normalizes to the record with the synthesized
`0.0000`-rendered reason and the seven-key `extra_metadata`. -/
theorem alan_records_witness :
    List.Forall₂ (fun b r => normalizeAlanBill b = .ok r)
      [Json.obj [("number", .str "SB01071"), ("bill_id", .str "1932259")]]
      [Json.obj [("bill_number", .str "SB01071"), ("title", .null),
        ("url", .null),
        ("reason",
          .str "Vector similarity match (score: 0.0000, distance: 0.0000)"),
        ("extra_metadata", .obj [("bill_id", .str "1932259"),
          ("status_date", .null), ("last_action", .null), ("year", .null),
          ("session", .null), ("similarity_score", .num 0),
          ("distance", .num 0)])]] := by
  exact (alan_records_reason_and_metadata
    [("results", .arr [.obj [("number", .str "SB01071"),
      ("bill_id", .str "1932259")]])]
    [.obj [("number", .str "SB01071"), ("bill_id", .str "1932259")]]
    [.obj [("bill_number", .str "SB01071"), ("title", .null), ("url", .null),
      ("reason",
        .str "Vector similarity match (score: 0.0000, distance: 0.0000)"),
      ("extra_metadata", .obj [("bill_id", .str "1932259"),
        ("status_date", .null), ("last_action", .null), ("year", .null),
        ("session", .null), ("similarity_score", .num 0),
        ("distance", .num 0)])]]
    (by decide) (by decide) (by decide)).1

/-! ## C7: filter_batch response validation -/

/-- C7: `filter_batch` raises on a parsed response that lacks a `results`
key or whose `results` value is not an array, and returns the parsed
response unchanged — no coercion — exactly when `results` is an array. -/
theorem filter_batch_validates_results_shape :
    ∀ (response : List (String × Json)),
      (response.lookup "results" = none →
        filter_batch response = .error .missingResults) ∧
      (∀ v, response.lookup "results" = some v → (∀ xs, v ≠ .arr xs) →
        filter_batch response = .error .resultsNotArray) ∧
      (∀ xs, response.lookup "results" = some (.arr xs) →
        filter_batch response = .ok (.obj response)) ∧
      (filter_batch response = .ok (.obj response) ↔
        ∃ xs, response.lookup "results" = some (.arr xs)) := by
  intro response
  refine ⟨?_, ?_, ?_, ?_, ?_⟩
  · intro h; rw [filter_batch, h]
  · intro v h hne
    rw [filter_batch, h]
    cases v with
    | arr xs => exact absurd rfl (hne xs)
    | null => rfl
    | bool b => rfl
    | num q => rfl
    | str s => rfl
    | obj kvs => rfl
  · intro xs h; rw [filter_batch, h]
  · intro h
    cases hl : response.lookup "results" with
    | none => rw [filter_batch, hl] at h; exact nomatch h
    | some v =>
      cases v with
      | arr xs => exact ⟨xs, rfl⟩
      | null => rw [filter_batch, hl] at h; exact nomatch h
      | bool b => rw [filter_batch, hl] at h; exact nomatch h
      | num q => rw [filter_batch, hl] at h; exact nomatch h
      | str s => rw [filter_batch, hl] at h; exact nomatch h
      | obj kvs => rw [filter_batch, hl] at h; exact nomatch h
  · rintro ⟨xs, h⟩
    rw [filter_batch, h]

/-- C7 witness: a valid response is returned unchanged; a response without
`results` and one with a non-array `results` are hard errors. -/
theorem filter_batch_validates_witness :
    filter_batch [("results", .arr [.obj [("bill_identifier", .str "SB001"),
        ("relevant", .bool true), ("reason", .str "matches domain X")]])] =
      .ok (.obj [("results", .arr [.obj [("bill_identifier", .str "SB001"),
        ("relevant", .bool true), ("reason", .str "matches domain X")]])]) ∧
    filter_batch [("error", .str "overloaded")] = .error .missingResults ∧
    filter_batch [("results", .str "not a list")] =
      .error .resultsNotArray := by
  refine ⟨?_, ?_, ?_⟩
  · exact (filter_batch_validates_results_shape _).2.2.1
      [.obj [("bill_identifier", .str "SB001"), ("relevant", .bool true),
        ("reason", .str "matches domain X")]] (by decide)
  · exact (filter_batch_validates_results_shape _).1 (by decide)
  · exact (filter_batch_validates_results_shape _).2.1 (.str "not a list")
      (by decide) (fun xs h => nomatch h)

/-! ## C8: hook execution order, caching, exception swallowing -/

/-- C8: `execute_hooks` runs the registered hooks in registration order
threading each output into the next; a cache hit for the hook's cache key
short-circuits the hook entirely, returning the cached value; and a raising
hook is swallowed, the next hook receiving the last successfully produced
value. -/
theorem execute_hooks_order_cache_swallow :
    ∀ (cache : HookCache) (hooks : List HookSpec) (h : HookSpec)
      (data context v : Json) (k e : String),
      (execute_hooks cache (h :: hooks) data context =
        execute_hooks (executeHookStep context (cache, data) h).1 hooks
          (executeHookStep context (cache, data) h).2 context) ∧
      (h.getCacheKey data context = some k → cache.load k = some v →
        executeHookStep context (cache, data) h = (cache, v)) ∧
      ((h.getCacheKey data context = none ∨
          (h.getCacheKey data context = some k ∧ cache.load k = none)) →
        h.process data context = .error e →
        executeHookStep context (cache, data) h = (cache, data)) ∧
      execute_hooks cache [] data context = (cache, data) := by
  intro cache hooks h data context v k e
  refine ⟨rfl, ?_, ?_, rfl⟩
  · intro hk hl
    simp only [executeHookStep, hk, hl]
  · intro hkey hp
    rcases hkey with hk | ⟨hk, hl⟩
    · simp only [executeHookStep, hk, hp]
    · simp only [executeHookStep, hk, hl, hp]

/-- C8 witness: a concrete cached hook short-circuits to the cached value
and a concrete raising hook leaves the data unchanged. -/
theorem execute_hooks_witness :
    executeHookStep (.obj [("item_id", .num 7)])
        (⟨true, [("LegiScanHook_7", .str "cached")]⟩, .str "fresh")
        ⟨fun _ _ => some "LegiScanHook_7", fun _ _ => .ok (.str "computed")⟩ =
      (⟨true, [("LegiScanHook_7", .str "cached")]⟩, .str "cached") ∧
    executeHookStep (.obj [])
        (⟨true, []⟩, .obj [("bill", .null)])
        ⟨fun _ _ => none, fun _ _ => .error "TimeoutError"⟩ =
      (⟨true, []⟩, .obj [("bill", .null)]) := by
  refine ⟨?_, ?_⟩
  · exact (execute_hooks_order_cache_swallow
      ⟨true, [("LegiScanHook_7", .str "cached")]⟩ []
      ⟨fun _ _ => some "LegiScanHook_7", fun _ _ => .ok (.str "computed")⟩
      (.str "fresh") (.obj [("item_id", .num 7)]) (.str "cached")
      "LegiScanHook_7" "e").2.1 rfl rfl
  · exact (execute_hooks_order_cache_swallow ⟨true, []⟩ []
      ⟨fun _ _ => none, fun _ _ => .error "TimeoutError"⟩
      (.obj [("bill", .null)]) (.obj []) .null "k"
      "TimeoutError").2.2.1 (Or.inl rfl) rfl

/-! ## C2: batch isolation in the filter-pass run -/

theorem foldl_append_collect {g : ℕ → List Json} :
    ∀ (l : List ℕ) (acc : List Json),
      l.foldl (fun a i => a ++ g i) acc = acc ++ (l.map g).flatten := by
  intro l
  induction l with
  | nil => intro acc; simp
  | cons i l ih => intro acc; simp [ih]

theorem runFilterBatches_eq_join (bills : List Json) (batch_size : ℕ)
    (attempt : ℕ → List Json → Except String (List Json)) :
    runFilterBatches bills batch_size attempt =
      ((List.range (numBatches bills.length batch_size)).map
        (batchSuccessResults attempt bills batch_size)).flatten := by
  rw [runFilterBatches]
  have hbody : (fun (acc : List Json) i =>
      match attempt i (batchSlice bills batch_size i) with
      | .ok rs => acc ++ rs
      | .error _ => acc) =
      fun acc i => acc ++ batchSuccessResults attempt bills batch_size i := by
    funext acc i
    rw [batchSuccessResults]
    cases attempt i (batchSlice bills batch_size i) with
    | ok rs => rfl
    | error e => simp
  rw [hbody]
  rw [foldl_append_collect]
  simp

theorem numBatches_eq_ceil (n bs : ℕ) (hbs : 0 < bs) :
    (numBatches n bs : ℤ) = ⌈(n : ℚ) / (bs : ℚ)⌉ := by
  symm
  rw [Int.ceil_eq_iff]
  have hq0 : (0 : ℚ) < (bs : ℚ) := by exact_mod_cast hbs
  have key := Nat.div_add_mod (n + bs - 1) bs
  have hmod := Nat.mod_lt (n + bs - 1) hbs
  have keyz : (bs : ℤ) * (((n + bs - 1) / bs : ℕ) : ℤ) +
      (((n + bs - 1) % bs : ℕ) : ℤ) = (n : ℤ) + bs - 1 := by
    have h1 : ((n + bs - 1 : ℕ) : ℤ) = (n : ℤ) + bs - 1 := by
      have hnb : 1 ≤ n + bs := by omega
      push_cast [Nat.cast_sub hnb]
      ring
    rw [← h1]
    exact_mod_cast key
  have hmodz : (((n + bs - 1) % bs : ℕ) : ℤ) < (bs : ℤ) := by exact_mod_cast hmod
  have hmodz0 : (0 : ℤ) ≤ (((n + bs - 1) % bs : ℕ) : ℤ) := Int.ofNat_nonneg _
  have hq : numBatches n bs = (n + bs - 1) / bs := rfl
  constructor
  · rw [lt_div_iff₀ hq0]
    have hz : ((numBatches n bs : ℤ) - 1) * bs < (n : ℤ) := by
      rw [hq]
      nlinarith [keyz, hmodz]
    exact_mod_cast hz
  · rw [div_le_iff₀ hq0]
    have hz2 : (n : ℤ) ≤ (numBatches n bs : ℤ) * bs := by
      rw [hq]
      nlinarith [keyz, hmodz0]
    exact_mod_cast hz2

theorem organize_foldl_counts (bills : List Json) :
    ∀ (rs : List Json) (acc : List Json × List Json),
      (rs.foldl (organizeOne bills) acc).1.length +
        (rs.foldl (organizeOne bills) acc).2.length =
        acc.1.length + acc.2.length + rs.length := by
  intro rs
  induction rs with
  | nil => intro acc; simp
  | cons r rs ih =>
    intro acc
    rw [List.foldl_cons, ih]
    have hstep : (organizeOne bills acc r).1.length +
        (organizeOne bills acc r).2.length =
        acc.1.length + acc.2.length + 1 := by
      rw [organizeOne]
      by_cases hr : ((r.getKey "relevant").getD (.bool false)).truthy
      · simp [hr]; omega
      · simp [hr]; omega
    rw [hstep]
    simp [Nat.add_assoc, Nat.add_comm 1 rs.length]

/-- C2: the filter-pass orchestration splits `n` bills into
`ceil(n / batch_size)` batches, processes them sequentially, and on a
batch-level exception skips that batch and continues: the final result set
is exactly the in-order concatenation of every successful batch's results,
relevant/not-relevant partitioning happens only after all batches from the
concatenated results, and each result lands in exactly one bucket (no
abort). -/
theorem filter_run_batch_isolation :
    ∀ (bills : List Json) (batch_size : ℕ)
      (attempt : ℕ → List Json → Except String (List Json)),
      0 < batch_size →
      ((numBatches bills.length batch_size : ℤ) =
        ⌈(bills.length : ℚ) / (batch_size : ℚ)⌉) ∧
      runFilterBatches bills batch_size attempt =
        ((List.range (numBatches bills.length batch_size)).map
          (batchSuccessResults attempt bills batch_size)).flatten ∧
      (∀ i rs, attempt i (batchSlice bills batch_size i) = .ok rs →
        batchSuccessResults attempt bills batch_size i = rs) ∧
      (∀ i e, attempt i (batchSlice bills batch_size i) = .error e →
        batchSuccessResults attempt bills batch_size i = []) ∧
      runFilterPass bills batch_size attempt =
        organizeResults bills (runFilterBatches bills batch_size attempt) ∧
      (∀ rs : List Json,
        (organizeResults bills rs).1.length +
          (organizeResults bills rs).2.length = rs.length) := by
  intro bills batch_size attempt hbs
  refine ⟨numBatches_eq_ceil _ _ hbs,
    runFilterBatches_eq_join bills batch_size attempt, ?_, ?_, rfl, ?_⟩
  · intro i rs h; rw [batchSuccessResults, h]
  · intro i e h; rw [batchSuccessResults, h]
  · intro rs
    rw [organizeResults, organize_foldl_counts]
    simp

/-- C2 witness: three single-bill batches where batch 2 raises — the run
keeps the results of batches 1 and 3 in order and does not abort; and the
batch count is the rational ceiling at a concrete uneven split. -/
theorem filter_run_batch_isolation_witness :
    (numBatches 3 2 : ℤ) = ⌈(3 : ℚ) / (2 : ℚ)⌉ ∧
    runFilterBatches
        [.obj [("bill_number", .str "A")], .obj [("bill_number", .str "B")],
          .obj [("bill_number", .str "C")]] 1
        (fun i _ =>
          if i = 1 then .error "API timeout"
          else .ok [.obj [("bill_identifier", .str (if i = 0 then "A" else "C")),
            ("relevant", .bool false)]]) =
      [.obj [("bill_identifier", .str "A"), ("relevant", .bool false)],
        .obj [("bill_identifier", .str "C"), ("relevant", .bool false)]] := by
  refine ⟨?_, by decide⟩
  have h := filter_run_batch_isolation [.null, .null, .null] 2
    (fun _ _ => .ok []) (by decide)
  simpa using h.1

/-! ## C1 / C9: analysis run loop -/

theorem processBill_skipped {source_bills : List Json} {bill : Json}
    (orc : BillOracle) (acc : List Json × List Json)
    (h : billSkipped source_bills bill = true) :
    processBill source_bills orc acc bill = .ok acc := by
  rw [processBill]
  rw [billSkipped] at h
  cases hk : loopHeaderKeys bill with
  | none => rw [hk] at h; exact absurd h (by simp)
  | some bn =>
    rw [hk] at h
    simp only [Bool.and_eq_true, decide_eq_true_eq] at h
    have htr : (resolvedBillId source_bills bn).truthy = false := by
      simpa using h.2
    simp [h.1, htr]

theorem processBill_counts {source_bills : List Json} {orc : BillOracle}
    {acc acc1 : List Json × List Json} {bill : Json}
    (h : processBill source_bills orc acc bill = .ok acc1) :
    acc1.1.length + acc1.2.length =
      acc.1.length + acc.2.length +
        billContribution source_bills orc bill := by
  rw [processBill] at h
  rw [billContribution]
  cases hk : loopHeaderKeys bill with
  | none => rw [hk] at h; exact absurd h (by simp)
  | some bn =>
    rw [hk] at h
    by_cases hh : jsonHashable bn
    · by_cases hr : (resolvedBillId source_bills bn).truthy
      · cases hp : orc.preRaise with
        | some m =>
          simp [hh, hr, hp] at h
          subst h
          simp [hh, hr, hp]
          omega
        | none =>
          cases hd : orc.displayRaise with
          | some dmsg =>
            simp [hh, hr, hp, hd] at h
            subst h
            by_cases hrel : (((analyze_data orc.full_bill_text orc.timing
                orc.ai).getKey "is_relevant").getD (.bool false)).truthy
            · simp [hh, hr, hp, hd, hrel]; omega
            · simp [hh, hr, hp, hd, hrel]; omega
          | none =>
            simp [hh, hr, hp, hd] at h
            subst h
            by_cases hrel : (((analyze_data orc.full_bill_text orc.timing
                orc.ai).getKey "is_relevant").getD (.bool false)).truthy
            · simp [hh, hr, hp, hd, hrel]; omega
            · simp [hh, hr, hp, hd, hrel]; omega
      · simp [hh, hr] at h
        subst h
        simp [hh, hr]
    · have hh2 : jsonHashable bn = false := by simpa using hh
      simp [hh2] at h
      subst h
      simp [hh2]
      omega

theorem runAnalysisAux_counts (source_bills : List Json)
    (orcs : ℕ → BillOracle) :
    ∀ (bills : List Json) (i : ℕ) (acc res : List Json × List Json),
      runAnalysisAux source_bills orcs i acc bills = .ok res →
      res.1.length + res.2.length =
        acc.1.length + acc.2.length +
          bucketContributions source_bills orcs i bills := by
  intro bills
  induction bills with
  | nil =>
    intro i acc res h
    rw [runAnalysisAux] at h
    injection h with h
    subst h
    simp [bucketContributions]
  | cons b bs ih =>
    intro i acc res h
    rw [runAnalysisAux] at h
    cases hp : processBill source_bills (orcs i) acc b with
    | error e => rw [hp] at h; exact absurd h (by simp)
    | ok acc1 =>
      rw [hp] at h
      rw [ih (i + 1) acc1 res h, processBill_counts hp,
        bucketContributions]
      omega

theorem runAnalysisLoop_counts {source_bills bills : List Json}
    {orcs : ℕ → BillOracle} {res : List Json × List Json}
    (h : runAnalysisLoop source_bills bills orcs = .ok res) :
    res.1.length + res.2.length =
      bucketContributions source_bills orcs 0 bills := by
  have hc := runAnalysisAux_counts source_bills orcs bills 0 ([], []) res h
  simpa using hc

/-- C9: a filtered bill whose `bill_number` has no truthy `bill_id` in the
source-bill lookup is skipped: the loop iteration leaves both buckets
untouched and contributes zero rows, a lookup miss always produces such a
skip, and a completed run's bucket sizes sum to the per-bill row
contributions (0 for skipped, 1 normally, 2 on a display-block exception)
— so the sum can be strictly less than the number of bills selected. -/
theorem lookup_miss_skips_bill_from_both_buckets :
    ∀ (source_bills : List Json) (orc : BillOracle)
      (acc : List Json × List Json) (bill bn : Json) (bills : List Json)
      (orcs : ℕ → BillOracle) (res : List Json × List Json),
      (billSkipped source_bills bill = true →
        processBill source_bills orc acc bill = .ok acc) ∧
      (loopHeaderKeys bill = some bn →
        jsonHashable bn = true →
        billLookupGet source_bills bn = none →
        billSkipped source_bills bill = true) ∧
      (billSkipped source_bills bill = true →
        billContribution source_bills orc bill = 0) ∧
      (runAnalysisLoop source_bills bills orcs = .ok res →
        res.1.length + res.2.length =
          bucketContributions source_bills orcs 0 bills) := by
  intro source_bills orc acc bill bn bills orcs res
  refine ⟨processBill_skipped orc acc, ?_, ?_, runAnalysisLoop_counts⟩
  · intro hk hh hlk
    rw [billSkipped, hk]
    have hnull : resolvedBillId source_bills bn = .null := by
      unfold resolvedBillId
      rw [hlk]
    simp [hh, hnull, Json.truthy]
  · intro h
    rw [billSkipped] at h
    rw [billContribution]
    cases hk : loopHeaderKeys bill with
    | none => simp
    | some bn2 =>
      rw [hk] at h
      simp only [Bool.and_eq_true, decide_eq_true_eq] at h
      have htr : (resolvedBillId source_bills bn2).truthy = false := by
        simpa using h.2
      simp [h.1, htr]

/-- C9 witness: with an empty source-bill list, a selected bill resolves
no `bill_id`, the iteration returns the accumulator unchanged, and a
one-bill run completes with `0 + 0` bucket entries against `1` bill
selected. -/
theorem lookup_miss_skips_witness :
    processBill [] ⟨none, none, .null, .ok .null, none⟩
        ([.str "left"], [.str "right"])
        (.obj [("bill_number", .str "SB999"), ("title", .str "T"),
          ("url", .str "U")]) =
      .ok ([.str "left"], [.str "right"]) ∧
    runAnalysisLoop []
        [.obj [("bill_number", .str "SB999"), ("title", .str "T"),
          ("url", .str "U")]]
        (fun _ => ⟨none, none, .null, .ok .null, none⟩) =
      .ok ([], []) ∧
    ([Json.obj [("bill_number", .str "SB999"), ("title", .str "T"),
      ("url", .str "U")]] : List Json).length = 1 := by
  refine ⟨?_, by decide, rfl⟩
  exact (lookup_miss_skips_bill_from_both_buckets []
    ⟨none, none, .null, .ok .null, none⟩ ([.str "left"], [.str "right"])
    (.obj [("bill_number", .str "SB999"), ("title", .str "T"),
      ("url", .str "U")]) .null [] (fun _ => ⟨none, none, .null, .ok .null, none⟩)
    ([], [])).1 (by decide)

/-- C1 counterexample: a parse failure inside `analyze_data` yields a
degraded result whose keys are `error`, `full_bill_text` and `timing` — it
has no `is_relevant` key at all, so it does not carry only
`{error, is_relevant: false}` as claimed. -/
theorem degraded_result_shape_counterexample :
    (analyze_data none
        (.obj [("total_seconds", .num 0), ("legiscan_api_seconds", .num 0),
          ("text_extraction_seconds", .num 0), ("ai_analysis_seconds", .num 0),
          ("cache_hit", .bool false)])
        (.parseError "Expecting value")).keys =
      ["error", "full_bill_text", "timing"] ∧
    (analyze_data none
        (.obj [("total_seconds", .num 0), ("legiscan_api_seconds", .num 0),
          ("text_extraction_seconds", .num 0), ("ai_analysis_seconds", .num 0),
          ("cache_hit", .bool false)])
        (.parseError "Expecting value")).getKey "is_relevant" = none ∧
    (["error", "full_bill_text", "timing"] : List String) ≠
      ["error", "is_relevant"] := by
  exact ⟨by decide, by decide, by decide⟩

/-- C1 (amended): a bill whose analysis fails (LLM exception or
unparsable payload) gets a degraded result carrying exactly
`{error, full_bill_text, timing}` — no `is_relevant` key — from
`analyze_data`; the run loop routes it to the not-relevant bucket through
the falsy `is_relevant` default and never to the relevant bucket, one row
normally and a second `{error, is_relevant: false}` placeholder row when
the post-append display block raises, so the bill is never dropped; an
exception in the `try` before `analyze_data` — including the `TypeError`
of an unhashable `bill_number` at the lookup — appends the placeholder as
the only row; and a completed run's bucket sizes sum to the per-bill row
contributions (one per processed bill, plus one per caught display-block
exception, zero for skipped bills). -/
theorem failed_analysis_degraded_and_not_relevant :
    ∀ (fbt : Option String) (timing : Json) (msg dmsg : String)
      (source_bills : List Json) (orc : BillOracle)
      (acc : List Json × List Json) (bill bn : Json) (bills : List Json)
      (orcs : ℕ → BillOracle) (res : List Json × List Json),
      ((analyze_data fbt timing (.parseError msg)).keys =
          ["error", "full_bill_text", "timing"] ∧
        (analyze_data fbt timing (.parseError msg)).getKey "is_relevant" =
          none) ∧
      ((analyze_data fbt timing (.exn msg)).keys =
          ["error", "full_bill_text", "timing"] ∧
        (analyze_data fbt timing (.exn msg)).getKey "is_relevant" = none) ∧
      (loopHeaderKeys bill = some bn →
        jsonHashable bn = true →
        (resolvedBillId source_bills bn).truthy = true →
        orc.preRaise = none →
        (orc.ai = .parseError msg ∨ orc.ai = .exn msg) →
        orc.displayRaise = none →
        processBill source_bills orc acc bill =
          .ok (acc.1, acc.2 ++ [analysisRow bill
            (analyze_data orc.full_bill_text orc.timing orc.ai)])) ∧
      (loopHeaderKeys bill = some bn →
        jsonHashable bn = true →
        (resolvedBillId source_bills bn).truthy = true →
        orc.preRaise = none →
        (orc.ai = .parseError msg ∨ orc.ai = .exn msg) →
        orc.displayRaise = some dmsg →
        processBill source_bills orc acc bill =
          .ok (acc.1, acc.2 ++ [analysisRow bill
              (analyze_data orc.full_bill_text orc.timing orc.ai),
            analysisRow bill (loopErrorAnalysis dmsg)])) ∧
      (loopHeaderKeys bill = some bn →
        jsonHashable bn = true →
        (resolvedBillId source_bills bn).truthy = true →
        orc.preRaise = some msg →
        processBill source_bills orc acc bill =
          .ok (acc.1, acc.2 ++ [analysisRow bill (loopErrorAnalysis msg)])) ∧
      (loopHeaderKeys bill = some bn →
        jsonHashable bn = false →
        processBill source_bills orc acc bill =
          .ok (acc.1, acc.2 ++ [analysisRow bill (loopErrorAnalysis
            "TypeError: unhashable bill_number")])) ∧
      (runAnalysisLoop source_bills bills orcs = .ok res →
        res.1.length + res.2.length =
          bucketContributions source_bills orcs 0 bills) := by
  intro fbt timing msg dmsg source_bills orc acc bill bn bills orcs res
  refine ⟨⟨rfl, rfl⟩, ⟨rfl, rfl⟩, ?_, ?_, ?_, ?_, runAnalysisLoop_counts⟩
  · intro hk hh hr hp hai hd
    rw [processBill, hk]
    have hkey : (analyze_data orc.full_bill_text orc.timing
        orc.ai).getKey "is_relevant" = none := by
      rcases hai with h | h <;> rw [h] <;> rfl
    simp [hh, hr, hp, hd, hkey]
    rfl
  · intro hk hh hr hp hai hd
    rw [processBill, hk]
    have hkey : (analyze_data orc.full_bill_text orc.timing
        orc.ai).getKey "is_relevant" = none := by
      rcases hai with h | h <;> rw [h] <;> rfl
    have ht : (Json.bool false).truthy = false := rfl
    simp [hh, hr, hp, hd, hkey, ht]
  · intro hk hh hr hp
    rw [processBill, hk]
    simp [hh, hr, hp]
  · intro hk hh
    rw [processBill, hk]
    simp [hh]

/-- C1 witness: a concrete bill with a resolvable `bill_id` whose LLM
payload fails to parse lands, wrapped with its degraded analysis, in the
not-relevant bucket as the iteration's only row. -/
theorem failed_analysis_witness :
    processBill
        [.obj [("bill_number", .str "SB001"), ("bill_id", .num 1932259)]]
        ⟨none, none, .obj [("total_seconds", .num 0)],
          .parseError "Expecting value", none⟩
        ([], [])
        (.obj [("bill_number", .str "SB001"), ("title", .str "An Act"),
          ("url", .str "u")]) =
      .ok ([], [analysisRow
        (.obj [("bill_number", .str "SB001"), ("title", .str "An Act"),
          ("url", .str "u")])
        (.obj [("error", .str "JSON parsing failed: Expecting value"),
          ("full_bill_text", .null),
          ("timing", .obj [("total_seconds", .num 0)])])]) := by
  have h := (failed_analysis_degraded_and_not_relevant none
    (.obj [("total_seconds", .num 0)]) "Expecting value" "d"
    [.obj [("bill_number", .str "SB001"), ("bill_id", .num 1932259)]]
    ⟨none, none, .obj [("total_seconds", .num 0)],
      .parseError "Expecting value", none⟩
    ([], [])
    (.obj [("bill_number", .str "SB001"), ("title", .str "An Act"),
      ("url", .str "u")])
    (.str "SB001") [] (fun _ => ⟨none, none, .null, .ok .null, none⟩)
    ([], [])).2.2.1
    (by decide) (by decide) (by decide) rfl (Or.inl rfl) rfl
  exact h.trans (by decide)

end LegiLLM